import Mathlib

/-!
Verification development for the `scam_honeypot` repository.

The Python sources are shallowly embedded: pure functions become Lean
functions, the per-session mutable state of `app/risk_engine.py` becomes a
`SessionState` record threaded explicitly, Python `re` patterns become values
of a small regex AST evaluated by a backtracking matcher with Python
semantics (leftmost match, ordered alternation, greedy bounded/unbounded
repetition, word boundaries), and the external LLM / ML / HTTP collaborators
become explicit inputs.

Python character classes `\s`, `\w`, `\d` are modelled on the character
ranges actually exercised by this code base (ASCII plus the Devanagari
block, which contains no whitespace/word-relevant differences for the
patterns involved).
-/

namespace Honeypot

/-- Python regex `\s` (whitespace class), ASCII range. -/
def isSpaceChar (c : Char) : Bool :=
  c = ' ' || c = '\t' || c = '\n' || c = '\r' || c = '\x0b' || c = '\x0c'

/-- Python regex `\w` (word character), ASCII range. -/
def isWordChar (c : Char) : Bool :=
  c.isAlphanum || c = '_'

/-- Regex AST covering the constructs used by the repository's patterns:
character classes, concatenation, ordered alternation, greedy counted
repetition (`hi = none` means unbounded) and word boundaries `\b`. -/
inductive RE where
  | eps
  | cls (f : Char → Bool)
  | cat (a b : RE)
  | alt (a b : RE)
  | rep (r : RE) (lo : Nat) (hi : Option Nat)
  | wb

/-- Literal character. -/
def RE.lit (c : Char) : RE := .cls (fun x => x = c)

/-- Case-insensitive literal character (for patterns compiled with
`re.IGNORECASE`). -/
def RE.litI (c : Char) : RE := .cls (fun x => x.toLower = c.toLower)

/-- Literal string. -/
def strR (s : String) : RE := s.data.foldr (fun c r => RE.cat (RE.lit c) r) RE.eps

/-- Case-insensitive literal string. -/
def strI (s : String) : RE := s.data.foldr (fun c r => RE.cat (RE.litI c) r) RE.eps

/-- Ordered alternation of a list of regexes (first alternative preferred,
as in Python). An empty list never matches. -/
def altL (rs : List RE) : RE :=
  match rs with
  | [] => RE.cls (fun _ => false)
  | [r] => r
  | r :: rest => RE.alt r (altL rest)

/-- Concatenation of a list of regexes. -/
def catL (rs : List RE) : RE := rs.foldr RE.cat RE.eps

def RE.opt (r : RE) : RE := .rep r 0 (some 1)

def RE.star (r : RE) : RE := .rep r 0 none

def RE.plus (r : RE) : RE := .rep r 1 none

/-- Source: `\d` -/
def digitC : RE := .cls Char.isDigit

/-- Source: `\s` -/
def wsC : RE := .cls isSpaceChar

/-- Source: `\S` -/
def notWsC : RE := .cls (fun c => !isSpaceChar c)

/-- Source: `[\s\w]` -/
def wsWordC : RE := .cls (fun c => isSpaceChar c || isWordChar c)

/-- Source: `.` (any character except newline) -/
def anyC : RE := .cls (fun c => c ≠ '\n')

/-- Backtracking matcher in continuation-passing style, following Python `re`
semantics: ordered alternation, greedy repetition (longest first), word
boundary `\b` decided from the previous character `prev` and the head of the
remaining input `s`.  `reMGo step` handles one fuel level structurally on
the regex; repetition unfolds through `step`, which `reM` ties to the next
lower fuel level, keeping both functions structurally recursive (hence
kernel-reducible).  Callers supply fuel that is generous for the input
length, and every repetition body in the embedded patterns consumes at
least one character, so the bound is never reached on the inputs evaluated
in this file.
-/
def reMGo {α : Type}
    (step : RE → Option Char → List Char →
      (Option Char → List Char → Option α) → Option α) :
    RE → Option Char → List Char →
      (Option Char → List Char → Option α) → Option α
  | .eps, prev, s, k => k prev s
  | .cls f, _prev, s, k =>
    match s with
    | [] => none
    | c :: rest => if f c then k (some c) rest else none
  | .cat a b, prev, s, k =>
    reMGo step a prev s (fun p' s' => reMGo step b p' s' k)
  | .alt a b, prev, s, k =>
    match reMGo step a prev s k with
    | some x => some x
    | none => reMGo step b prev s k
  | .wb, prev, s, k =>
    let pw := match prev with | some c => isWordChar c | none => false
    let nw := match s with | c :: _ => isWordChar c | [] => false
    if pw ≠ nw then k prev s else none
  | .rep r' lo hi, prev, s, k =>
    match hi with
    | some 0 => k prev s
    | _ =>
      let more := step r' prev s
        (fun p' s' => step (.rep r' (lo - 1) (hi.map (· - 1))) p' s' k)
      if lo = 0 then
        match more with
        | some x => some x
        | none => k prev s
      else more

def reM {α : Type} : Nat → RE → Option Char → List Char →
    (Option Char → List Char → Option α) → Option α
  | 0, _, _, _, _ => none
  | fuel + 1, r, prev, s, k => reMGo (reM fuel) r prev s k

/-- Default fuel for an input suffix. -/
def reFuel (s : List Char) : Nat := 8 * s.length + 64

/-- Try to match `r` exactly at the current position; on success return the
remaining suffix after the (leftmost-preferred) match. -/
def reAt (r : RE) (prev : Option Char) (s : List Char) : Option (List Char) :=
  reM (reFuel s) r prev s (fun _ s' => some s')

/-- Python `pattern.search(text) is not None`, scanning positions left to
right. -/
def reSearch (r : RE) (prev : Option Char) (s : List Char) : Bool :=
  match reAt r prev s with
  | some _ => true
  | none =>
    match s with
    | [] => false
    | c :: rest => reSearch r (some c) rest

/-- Source: `re.search` on a string (None-test only). -/
def reTest (r : RE) (text : String) : Bool := reSearch r none text.data

/-- Python `pattern.findall(text)` for a pattern without capture groups:
scan left to right, taking leftmost non-overlapping matches. -/
def reFindallAux (r : RE) (prev : Option Char) (s : List Char) (fuel : Nat) :
    List String :=
  match fuel with
  | 0 => []
  | fuel + 1 =>
    match reAt r prev s with
    | some s' =>
      let len := s.length - s'.length
      if len = 0 then
        -- zero-width match: record it and advance one character
        match s with
        | [] => [""]
        | c :: rest => "" :: reFindallAux r (some c) rest fuel
      else
        String.mk (s.take len) :: reFindallAux r (s.take len).getLast? s' fuel
    | none =>
      match s with
      | [] => []
      | c :: rest => reFindallAux r (some c) rest fuel

def reFindall (r : RE) (text : String) : List String :=
  reFindallAux r none text.data (text.data.length + 1)

/-- Match `cat pre grp` at the current position, returning the substring
matched by `grp` (the trailing capture group) together with the suffix after
the whole match. -/
def reAt2 (pre grp : RE) (prev : Option Char) (s : List Char) :
    Option (String × List Char) :=
  reM (reFuel s) pre prev s (fun p' s' =>
    reM (reFuel s) grp p' s' (fun _ s'' =>
      some (String.mk (s'.take (s'.length - s''.length)), s'')))

/-- Python `pattern.findall(text)` for a pattern of the form
`pre(grp)` whose single capture group is the trailing part: returns the list
of captured group strings. -/
def reFindall2Aux (pre grp : RE) (prev : Option Char) (s : List Char)
    (fuel : Nat) : List String :=
  match fuel with
  | 0 => []
  | fuel + 1 =>
    match reAt2 pre grp prev s with
    | some (g, s') =>
      let len := s.length - s'.length
      if len = 0 then
        match s with
        | [] => [g]
        | c :: rest => g :: reFindall2Aux pre grp (some c) rest fuel
      else
        g :: reFindall2Aux pre grp (s.take len).getLast? s' fuel
    | none =>
      match s with
      | [] => []
      | c :: rest => reFindall2Aux pre grp (some c) rest fuel

def reFindall2 (pre grp : RE) (text : String) : List String :=
  reFindall2Aux pre grp none text.data (text.data.length + 1)

/-! ### String helpers (Python `in`, list append-if-new) -/

/-- Python `needle in hay` for lists of characters. -/
def subList (needle hay : List Char) : Bool :=
  needle.isPrefixOf hay ||
    match hay with
    | [] => false
    | _ :: t => subList needle t

/-- Python `needle in hay` (substring containment). -/
def containsSub (hay needle : String) : Bool := subList needle.data hay.data

/-- Python `if x not in xs: xs.append(x)`. -/
def appendNew (xs : List String) (x : String) : List String :=
  if xs.contains x then xs else xs ++ [x]

/-- Python `str.lower()` (per-codepoint, as in CPython for ASCII). -/
def strToLower (s : String) : String := String.mk (s.data.map Char.toLower)

/-- Python `str.upper()`. -/
def strToUpper (s : String) : String := String.mk (s.data.map Char.toUpper)

/-- Python `str.strip()` (no arguments: strip whitespace on both ends). -/
def strTrim (s : String) : String :=
  String.mk
    (((s.data.dropWhile isSpaceChar).reverse.dropWhile isSpaceChar).reverse)

/-- Python `str.startswith(pre)`. -/
def strStartsWith (s pre : String) : Bool := pre.data.isPrefixOf s.data

/-- Python `sep.join(parts)`. -/
def strJoin (sep : String) : List String → String
  | [] => ""
  | [x] => x
  | x :: y :: xs => x ++ sep ++ strJoin sep (y :: xs)

/-! ## Data model (`app/risk_engine.py`)

`SessionState` carries the fields the verified claims depend on; logging
fields and wall-clock timestamps are omitted (they never feed back into
control flow).  Python `float` values compared against decimal literals
(LLM confidences, persona levels) are modelled as `Rat`.
-/

/-- Source: `ScamStage` (`risk_engine.py`). -/
inductive ScamStage where
  | NORMAL | HOOK | TRUST | THREAT | ACTION | CONFIRMED
deriving DecidableEq, Repr

/-- Position of a stage in `stage_priority`
(`[NORMAL, HOOK, TRUST, THREAT, ACTION, CONFIRMED]`), as used by
`list.index` in the source. -/
def ScamStage.idx : ScamStage → Nat
  | .NORMAL => 0
  | .HOOK => 1
  | .TRUST => 2
  | .THREAT => 3
  | .ACTION => 4
  | .CONFIRMED => 5

/-- Source: `EmotionalState` (`risk_engine.py`). -/
inductive EmotionalState where
  | neutral | confused | concerned | anxious | scared | panicked | compliant
deriving DecidableEq, Repr

/-- Source: `TriggeredSignal` (`risk_engine.py`); the `timestamp` field is omitted. -/
structure TriggeredSignal where
  signal_type : String
  signal_name : String
  score : Int
  is_hard_rule : Bool
  source : String
  turn_number : Nat
  description : String := ""
deriving DecidableEq, Repr

/-- Source: `LLMJudgement` (`risk_engine.py`); the `timestamp` field is omitted. -/
structure LLMJudgement where
  turn_number : Nat
  is_scam_likely : Bool
  confidence : Rat
  scam_type : Option String
  reasoning : String
  risk_boost : Int
  stage_suggestion : Option ScamStage
  red_flags : List String
deriving DecidableEq, Repr

/-- Source: `PersonaState` (`risk_engine.py`). -/
structure PersonaState where
  current_emotion : EmotionalState := .neutral
  emotion_history : List EmotionalState := []
  trust_level : Rat := 0.5
  compliance_level : Rat := 0.3
deriving DecidableEq, Repr

/-- Source: `PersonaState.drift_emotion`. -/
def PersonaState.drift_emotion (p : PersonaState) (new_emotion : EmotionalState) :
    PersonaState :=
  { p with
    emotion_history := p.emotion_history ++ [p.current_emotion]
    current_emotion := new_emotion }

/-- Source: `PersonaState.increase_compliance`. -/
def PersonaState.increase_compliance (p : PersonaState) (amount : Rat) :
    PersonaState :=
  { p with compliance_level := min 1 (p.compliance_level + amount) }

/-- Source: `SessionState` (`risk_engine.py`): the per-session mutable state.
`session_id`, `signals_by_turn` (a by-turn view of `triggered_signals`),
`created_at` and log output are omitted. -/
structure SessionState where
  risk_score : Int := 0
  scam_stage : ScamStage := .NORMAL
  scam_detected : Bool := false
  hard_rule_triggered : Bool := false
  turn_count : Nat := 0
  triggered_signals : List TriggeredSignal := []
  llm_judgements : List LLMJudgement := []
  upi_ids : List String := []
  bank_accounts : List String := []
  phone_numbers : List String := []
  phishing_links : List String := []
  suspicious_keywords : List String := []
  persona_state : PersonaState := {}
  mission_complete : Bool := false
  callback_sent : Bool := false
  stage_history : List (ScamStage × Nat) := []
deriving DecidableEq, Repr

/-- A fresh session, as built by `SessionState.__init__`. -/
def SessionState.init : SessionState := {}

/-- The `stage_emotions` map of `_update_persona_for_stage`. -/
def stage_emotion : ScamStage → EmotionalState
  | .NORMAL => .neutral
  | .HOOK => .confused
  | .TRUST => .concerned
  | .THREAT => .anxious
  | .ACTION => .scared
  | .CONFIRMED => .compliant

/-- The persona update of `_update_persona_for_stage` (only the
`persona_state` field is mutated by that method). -/
def personaAfterStage (stage : ScamStage) (p : PersonaState) : PersonaState :=
  let p := p.drift_emotion (stage_emotion stage)
  if stage = .THREAT ∨ stage = .ACTION ∨ stage = .CONFIRMED then
    p.increase_compliance 0.15
  else p

/-- Source: `SessionState._update_persona_for_stage`. -/
def SessionState.update_persona_for_stage (s : SessionState) : SessionState :=
  { s with persona_state := personaAfterStage s.scam_stage s.persona_state }

/-- Source: `SessionState._transition_stage`. -/
def SessionState.transition_stage (s : SessionState) (new_stage : ScamStage) :
    SessionState :=
  let s := { s with
    stage_history := s.stage_history ++ [(s.scam_stage, s.turn_count)]
    scam_stage := new_stage }
  s.update_persona_for_stage

/-- Source: `SessionState._check_risk_thresholds`. -/
def SessionState.check_risk_thresholds (s : SessionState) : SessionState :=
  if s.risk_score ≥ 70 then
    let s :=
      if s.scam_stage ≠ .CONFIRMED then s.transition_stage .CONFIRMED else s
    { s with scam_detected := true }
  else if s.risk_score ≥ 50 then
    if s.scam_stage ∉ [ScamStage.THREAT, .ACTION, .CONFIRMED] then
      s.transition_stage .THREAT
    else s
  else if s.risk_score ≥ 25 then
    if s.scam_stage = .NORMAL then s.transition_stage .HOOK else s
  else s

/-- Source: `SessionState.add_risk`: cumulative, clamped to 100, followed by the
threshold re-evaluation. -/
def SessionState.add_risk (s : SessionState) (score : Int) : SessionState :=
  let s := { s with risk_score := min (s.risk_score + score) 100 }
  s.check_risk_thresholds

/-- Source: `SessionState.trigger_hard_rule`. -/
def SessionState.trigger_hard_rule (s : SessionState) (score : Int) :
    SessionState :=
  let s := { s with hard_rule_triggered := true, scam_detected := true }
  let s := s.add_risk score
  if s.scam_stage ∉ [ScamStage.ACTION, .CONFIRMED] then
    s.transition_stage .ACTION
  else s

/-- Source: `SessionState.add_signal`. -/
def SessionState.add_signal (s : SessionState) (signal : TriggeredSignal) :
    SessionState :=
  let s := { s with triggered_signals := s.triggered_signals ++ [signal] }
  let s := s.add_risk signal.score
  if signal.is_hard_rule then s.trigger_hard_rule 0 else s

/-- Risk-boost step of `add_llm_judgement`
(`if judgement.risk_boost > 0: self.add_risk(...)`). -/
def llm_boost_step (s : SessionState) (j : LLMJudgement) : SessionState :=
  if j.risk_boost > 0 then s.add_risk j.risk_boost else s

/-- Stage-suggestion step of `add_llm_judgement`: advance only when the
confidence is at least 0.7 and the suggested stage is strictly later. -/
def llm_stage_step (s : SessionState) (j : LLMJudgement) : SessionState :=
  match j.stage_suggestion with
  | some suggested =>
    if j.confidence ≥ 0.7 ∧ suggested.idx > s.scam_stage.idx then
      s.transition_stage suggested
    else s
  | none => s

/-- Detection-latch step of `add_llm_judgement`
(`if judgement.is_scam_likely and judgement.confidence >= 0.85`). -/
def llm_latch_step (s : SessionState) (j : LLMJudgement) : SessionState :=
  if j.is_scam_likely ∧ j.confidence ≥ 0.85 then
    { s with scam_detected := true }
  else s

/-- Source: `SessionState.add_llm_judgement`: record the judgement, then the three
sequential mutations of the method. -/
def SessionState.add_llm_judgement (s : SessionState) (j : LLMJudgement) :
    SessionState :=
  llm_latch_step
    (llm_stage_step
      (llm_boost_step { s with llm_judgements := s.llm_judgements ++ [j] } j) j) j

/-- Source: `pattern_stage_map` of `SessionState.update_stage_from_patterns`. -/
def pattern_stage_map (p : String) : Option ScamStage :=
  if p = "greeting" ∨ p = "introduction" ∨ p = "authority_claim" then some .HOOK
  else if p = "verification" ∨ p = "procedure" ∨ p = "credibility" then some .TRUST
  else if p = "urgency" ∨ p = "consequence" ∨ p = "fear" then some .THREAT
  else if p = "payment_request" ∨ p = "otp_request" ∨ p = "link_share" then some .ACTION
  else none

/-- One iteration of the `update_stage_from_patterns` loop.  The source
tracks `current_priority` in a local variable; it always equals the index of
the current stage (it is refreshed on every transition), so comparing
against `s.scam_stage.idx` is equivalent. -/
def pattern_step (s : SessionState) (p : String) : SessionState :=
  match pattern_stage_map p with
  | some suggested =>
    if suggested.idx > s.scam_stage.idx then s.transition_stage suggested else s
  | none => s

/-- Source: `SessionState.update_stage_from_patterns`. -/
def SessionState.update_stage_from_patterns (s : SessionState)
    (detected_patterns : List String) : SessionState :=
  detected_patterns.foldl pattern_step s

/-- Source: `SessionState.has_high_value_intel`. -/
def SessionState.has_high_value_intel (s : SessionState) : Bool :=
  !s.upi_ids.isEmpty || !s.bank_accounts.isEmpty ||
    (s.phone_numbers.length > 0 && s.phishing_links.length > 0)

/-- Source: `SessionState.check_mission_complete`: returns the boolean result and
the updated session (the Python method mutates `mission_complete`). -/
def SessionState.check_mission_complete (s : SessionState) :
    Bool × SessionState :=
  if s.mission_complete then (true, s)
  else if !s.scam_detected then (false, s)
  else
    let has_intel := s.has_high_value_intel
    let min_turns := s.turn_count ≥ 5
    let action_signals := s.triggered_signals.filter (fun sig =>
      sig.signal_type ∈ ["financial", "otp_request", "payment_request"])
    let repeated_demands := action_signals.length ≥ 3
    if has_intel && (min_turns || repeated_demands) then
      (true, { s with mission_complete := true })
    else if s.turn_count ≥ 25 then
      (true, { s with mission_complete := true })
    else (false, s)

/-! ## Rule catalog (`CumulativeRiskEngine._init_hard_rules` /
`_init_soft_rules` in `app/risk_engine.py`)

Pattern building blocks mirror the Python regex syntax: `wsWordC` is
`[\s\w]`, `sepOpt` is `[\s-]?`, `wordBnd r` wraps `r` in `\b…\b`.
All rule patterns are compiled with `re.IGNORECASE`, hence `strI`/`litI`. -/

/-- Source: `[\s-]?` -/
def sepOpt : RE := RE.opt (.cls (fun c => isSpaceChar c || c = '-'))

/-- Source: `\b … \b` -/
def wordBnd (r : RE) : RE := catL [.wb, r, .wb]

/-- Source: `HardRule` (`risk_engine.py`), with `category` carrying the
`SignalCategory` string value. -/
structure HardRule where
  name : String
  pattern : RE
  score : Int
  category : String
  description : String

/-- Source: `SoftRule` (`risk_engine.py`). -/
structure SoftRule where
  name : String
  keywords : List String
  score : Int
  category : String
  description : String

/-- The eleven hard rules of `_init_hard_rules`, patterns transcribed
verbatim. -/
def hard_rules : List HardRule := [
  { name := "otp_share_request"
    pattern := wordBnd (catL [
      altL [strI "share", strI "send", strI "tell", strI "give", strI "provide",
            strI "forward", strI "enter"],
      RE.rep wsWordC 0 (some 10),
      altL [strI "otp",
            catL [strI "o", RE.lit '.', strI "t", RE.lit '.', strI "p"],
            catL [strI "one", sepOpt, strI "time", sepOpt, strI "password"],
            catL [strI "verification", sepOpt, strI "code"],
            catL [strI "auth", RE.opt (strI "entication"), sepOpt, strI "code"],
            catL [strI "security", sepOpt, strI "code"],
            strI "pin", strI "cvv"]])
    score := 35, category := "otp_request"
    description := "Explicit request to share OTP/verification code" },
  { name := "otp_on_phone"
    pattern := wordBnd (catL [
      altL [strI "otp", strI "code"],
      RE.rep wsWordC 0 (some 15),
      altL [strI "received", strI "came", strI "sent", strI "got",
            strI "on your phone", strI "message"]])
    score := 30, category := "otp_request"
    description := "Reference to OTP sent to victim's phone" },
  { name := "upi_pin_request"
    pattern := wordBnd (catL [
      altL [strI "enter", strI "share", strI "tell", strI "give", strI "type",
            strI "input"],
      RE.rep wsWordC 0 (some 10),
      altL [catL [strI "upi", sepOpt, strI "pin"], strI "mpin",
            catL [strI "m", RE.lit '.', strI "pin"]]])
    score := 40, category := "financial"
    description := "Request for UPI PIN" },
  { name := "qr_receive_money"
    pattern := RE.alt
      (wordBnd (catL [
        altL [strI "scan", strI "accept"], RE.rep wsWordC 0 (some 15),
        altL [strI "qr", strI "code"], RE.rep wsWordC 0 (some 15),
        altL [strI "receive", strI "get", strI "claim", strI "credit"]]))
      (wordBnd (catL [
        altL [strI "receive", strI "get"], RE.rep wsWordC 0 (some 15),
        altL [strI "money", strI "amount", strI "payment"],
        RE.rep wsWordC 0 (some 15),
        altL [strI "scan", strI "qr"]]))
    score := 35, category := "qr_code"
    description := "QR code scam - scan to receive money" },
  { name := "qr_approve"
    pattern := wordBnd (catL [
      altL [strI "approve", strI "accept", strI "confirm"],
      RE.rep wsWordC 0 (some 10),
      altL [strI "payment", strI "request", strI "qr"]])
    score := 30, category := "qr_code"
    description := "Request to approve payment" },
  { name := "remote_access_request"
    pattern := wordBnd (catL [
      altL [strI "install", strI "download", strI "open"],
      RE.rep wsWordC 0 (some 15),
      altL [strI "anydesk", strI "teamviewer",
            catL [strI "quick", sepOpt, strI "support"],
            strI "ammyy", strI "ultraviewer",
            catL [strI "screen", sepOpt, strI "share"],
            catL [strI "remote", sepOpt, strI "access"],
            strI "airdroid"]])
    score := 40, category := "remote_access"
    description := "Request to install remote access software" },
  { name := "remote_access_code"
    pattern := RE.alt
      (wordBnd (catL [
        altL [strI "anydesk", strI "teamviewer"], RE.rep wsWordC 0 (some 10),
        altL [strI "code", strI "id", strI "number"]]))
      (wordBnd (catL [
        altL [strI "9", strI "10"], sepOpt, strI "digit", sepOpt, strI "code"]))
    score := 35, category := "remote_access"
    description := "Request for remote access code" },
  { name := "transfer_money_request"
    pattern := wordBnd (catL [
      altL [strI "transfer", strI "send", strI "pay", strI "deposit"],
      RE.rep wsWordC 0 (some 15),
      altL [catL [strI "rs", RE.opt (RE.lit '.')], strI "₹",
            catL [strI "rupee", RE.opt (RE.litI 's')], strI "amount", strI "money"],
      RE.rep wsWordC 0 (some 10),
      altL [RE.rep digitC 2 none,
            catL [strI "to", RE.plus wsWordC, strI "account"],
            strI "immediately", strI "now", strI "urgent"]])
    score := 30, category := "payment_request"
    description := "Direct money transfer request" },
  { name := "fee_request"
    pattern := wordBnd (catL [
      altL [strI "processing", strI "registration", strI "service",
            strI "insurance", strI "verification", strI "security",
            strI "token", strI "advance", strI "handling"],
      sepOpt, strI "fee"])
    score := 28, category := "financial"
    description := "Request for processing/registration fee" },
  { name := "card_pin_request"
    pattern := RE.alt
      (wordBnd (catL [
        altL [strI "atm", strI "debit", strI "credit", strI "card"],
        RE.rep wsWordC 0 (some 10),
        altL [strI "pin", strI "cvv", strI "number"]]))
      (wordBnd (catL [
        altL [strI "share", strI "tell", strI "give"],
        RE.rep wsWordC 0 (some 10),
        altL [strI "pin", strI "cvv"]]))
    score := 40, category := "financial"
    description := "Request for card PIN/CVV" },
  { name := "phishing_url"
    pattern := catL [
      strI "http", RE.opt (RE.litI 's'), strR "://",
      RE.star (catL [RE.plus (.cls (fun c => isWordChar c || c = '-')), RE.lit '.']),
      altL [strI "tk", strI "ml", strI "ga", strI "cf", strI "gq",
            catL [strI "herokuapp", RE.lit '.', strI "com"],
            catL [RE.rep digitC 1 (some 3), RE.lit '.', RE.rep digitC 1 (some 3),
                  RE.lit '.', RE.rep digitC 1 (some 3), RE.lit '.',
                  RE.rep digitC 1 (some 3)]],
      RE.star (.cls (fun c => isWordChar c ||
        c ∈ ['/', '-', '.', '_', '~', ':', '?', '#', '[', ']', '@', '!', '$',
             '&', '\x27', '(', ')', '*', '+', ',', ';', '=', '%']))]
    score := 35, category := "phishing"
    description := "Suspicious/phishing URL detected" }]

/-- The fifteen soft rules of `_init_soft_rules`. -/
def soft_rules : List SoftRule := [
  { name := "high_urgency"
    keywords := ["immediately", "right now", "urgent", "asap", "hurry",
                 "within 24 hours", "within 2 hours", "last warning",
                 "final notice", "deadline today", "expires today",
                 "time sensitive", "don\x27t delay", "act now"]
    score := 12, category := "urgency", description := "High urgency language" },
  { name := "medium_urgency"
    keywords := ["soon", "quickly", "fast", "deadline", "limited time"]
    score := 8, category := "urgency", description := "Medium urgency language" },
  { name := "account_threat"
    keywords := ["account blocked", "account suspended", "account terminated",
                 "account frozen", "account deactivated", "account compromised",
                 "account hacked", "unauthorized access", "suspicious activity"]
    score := 18, category := "threat", description := "Account threat/suspension" },
  { name := "legal_threat"
    keywords := ["legal action", "court case", "police complaint", "fir",
                 "arrest warrant", "jail", "imprisoned", "criminal case",
                 "cyber crime", "prosecution", "investigation"]
    score := 22, category := "threat", description := "Legal/criminal threat" },
  { name := "financial_threat"
    keywords := ["penalty", "fine", "charge", "loss", "fraud detected",
                 "money at risk", "savings at risk", "seized"]
    score := 15, category := "threat", description := "Financial threat" },
  { name := "gov_authority"
    keywords := ["rbi", "reserve bank", "income tax", "it department",
                 "customs", "government", "ministry", "trai", "sebi",
                 "enforcement directorate", "ed", "cbi"]
    score := 20, category := "authority"
    description := "Government authority impersonation" },
  { name := "police_authority"
    keywords := ["police", "cyber cell", "cyber crime", "investigation officer",
                 "inspector", "commissioner"]
    score := 22, category := "authority"
    description := "Police/law enforcement impersonation" },
  { name := "bank_authority"
    keywords := ["bank manager", "customer care", "security team",
                 "fraud department", "bank official", "authorized representative"]
    score := 15, category := "authority"
    description := "Bank authority impersonation" },
  { name := "money_mention"
    keywords := ["refund", "cashback", "prize money", "lottery", "winner",
                 "claim reward", "bonus", "compensation"]
    score := 12, category := "financial", description := "Money/reward mention" },
  { name := "payment_terms"
    keywords := ["bank details", "account number", "transfer", "payment",
                 "pay now", "emi", "loan", "credit", "insurance"]
    score := 10, category := "financial", description := "Payment terminology" },
  { name := "identity_request"
    keywords := ["aadhaar", "aadhar", "pan card", "pan number",
                 "date of birth", "dob", "kyc", "verify identity"]
    score := 15, category := "personal_info"
    description := "Identity document request" },
  { name := "credential_request"
    keywords := ["password", "login details", "credentials",
                 "security question", "mother\x27s maiden name"]
    score := 18, category := "personal_info", description := "Credential request" },
  { name := "link_action"
    keywords := ["click here", "click the link", "click this link",
                 "visit this link", "open link", "tap here"]
    score := 14, category := "phishing", description := "Link click request" },
  { name := "app_install"
    keywords := ["download app", "install app", "install application",
                 "download from", "get this app"]
    score := 16, category := "phishing", description := "App installation request" },
  { name := "evasion"
    keywords := ["can\x27t tell you", "confidential", "security reasons",
                 "protocol", "procedure", "policy doesn\x27t allow"]
    score := 10, category := "behavioral", description := "Evasive behavior" },
  { name := "pressure"
    keywords := ["trust me", "believe me", "i promise", "guaranteed",
                 "100%", "no risk", "safe", "secure", "verified process"]
    score := 8, category := "behavioral", description := "Trust pressure" }]

/-- Scaled soft score
`int(min(rule.score * (1 + len(matches) * 0.2), rule.score * 2))`,
computed in exact arithmetic (the Python float computation agrees with the
rational one on every rule score and match count, since scores are small
integers). -/
def scaledSoftScore (score : Int) (matchCount : Nat) : Int :=
  (min ((score : Rat) * (1 + (matchCount : Rat) * 0.2)) ((score : Rat) * 2)).floor

/-- Source: `CumulativeRiskEngine.analyze_message`: returns
`(signals, message_score, hard_rule_triggered)`. -/
def analyze_message (message : String) (turn_number : Nat) :
    List TriggeredSignal × Int × Bool :=
  let message_lower := strToLower message
  let step1 := hard_rules.foldl
    (fun (acc : List TriggeredSignal × Int × Bool) rule =>
      if reTest rule.pattern message then
        (acc.1 ++ [{ signal_type := rule.category, signal_name := rule.name,
                     score := rule.score, is_hard_rule := true, source := "rule",
                     turn_number := turn_number, description := rule.description }],
         acc.2.1 + rule.score, true)
      else acc)
    ([], 0, false)
  soft_rules.foldl
    (fun (acc : List TriggeredSignal × Int × Bool) rule =>
      let hits := rule.keywords.filter
        (fun kw => containsSub message_lower (strToLower kw))
      if !hits.isEmpty then
        let sc := scaledSoftScore rule.score hits.length
        (acc.1 ++ [{ signal_type := rule.category, signal_name := rule.name,
                     score := sc, is_hard_rule := false, source := "rule",
                     turn_number := turn_number,
                     description := rule.description ++ ": " ++
                       strJoin ", " (hits.take 3) }],
         acc.2.1 + sc, acc.2.2)
      else acc)
    step1

/-- Source: `CumulativeRiskEngine.apply_signals_to_session`. -/
def apply_signals_to_session (s : SessionState) (signals : List TriggeredSignal)
    (hard_rule_triggered : Bool) : SessionState :=
  let s := signals.foldl SessionState.add_signal s
  if hard_rule_triggered then
    { s with scam_detected := true, hard_rule_triggered := true }
  else s

/-- The confidence ladder of `CumulativeRiskEngine.apply_ml_score`. -/
def mlLadderScore (ml_confidence : Rat) : Int :=
  if ml_confidence ≥ 0.9 then 25
  else if ml_confidence ≥ 0.8 then 18
  else if ml_confidence ≥ 0.7 then 12
  else 8

/-- Source: `CumulativeRiskEngine.apply_ml_score` (description formatting omitted). -/
def apply_ml_score (s : SessionState) (ml_confidence : Rat) (ml_is_scam : Bool)
    (turn_number : Nat) : SessionState :=
  if !ml_is_scam || ml_confidence < 0.6 then s
  else
    s.add_signal
      { signal_type := "ml_detection", signal_name := "ml_classifier",
        score := mlLadderScore ml_confidence, is_hard_rule := false,
        source := "ml", turn_number := turn_number,
        description := "ML confidence" }

/-! ## Hybrid detector (`app/scam_detector.py`)

The ML scorer (floating-point logistic in `app/ml_detector.py`) and the LLM
judge (remote chat API) are external inputs of a turn here: `MlResult` is
what `_run_ml_detection` returned, `llm_response` is what
`LLMReasoningJudge.judge` would return for this turn (the judge always
returns a judgement — a deterministic fallback exists when the API is
unavailable); it is applied only under the invocation condition of
`HybridScamDetector.detect`. -/

structure MlResult where
  is_scam : Bool
  confidence : Rat
deriving DecidableEq, Repr

/-- The `scamDetected` field computed by
`HybridScamDetector._make_decision` (the other output fields — confidence,
reasons, decision text — do not feed back into session state). -/
def make_decision_scamDetected (session : SessionState)
    (hard_rule_triggered : Bool) (ml_is_scam : Bool)
    (llm_judgement : Option LLMJudgement) : Bool :=
  if hard_rule_triggered then true
  else if session.risk_score ≥ 70 then true
  else if session.risk_score ≥ 50 then
    let ml_agrees := ml_is_scam
    let llm_agrees := match llm_judgement with
      | some j => j.is_scam_likely
      | none => false
    if ml_agrees && llm_agrees then true else session.scam_detected
  else session.scam_detected

/-- The ML gate of `HybridScamDetector.detect` (step 3): apply the ML score
only when the classifier flags the message at confidence ≥ 0.6. -/
def detect_ml_step (s : SessionState) (ml : MlResult) (turn : Nat) :
    SessionState :=
  if ml.is_scam ∧ ml.confidence ≥ 0.6 then
    apply_ml_score s ml.confidence ml.is_scam turn
  else s

/-- The session state of one `HybridScamDetector.detect` turn after steps
1-3 (turn increment, rule signals, stage patterns, ML) and before the LLM
judge. -/
def preLlmState (s : SessionState) (message : String)
    (stage_patterns : List String) (ml : MlResult) : SessionState :=
  let s0 : SessionState := { s with turn_count := s.turn_count + 1 }
  let res := analyze_message message s0.turn_count
  detect_ml_step
    ((apply_signals_to_session s0 res.1 res.2.2).update_stage_from_patterns
      stage_patterns)
    ml s0.turn_count

/-- The LLM invocation condition of `HybridScamDetector.detect`:
`session.risk_score ≥ 20 or len(stage_patterns) ≥ 2 or
hard_rule_triggered`, evaluated after the ML step. -/
def shouldInvokeLlm (s : SessionState) (message : String)
    (stage_patterns : List String) (ml : MlResult) : Bool :=
  decide ((preLlmState s message stage_patterns ml).risk_score ≥ 20) ||
    decide (stage_patterns.length ≥ 2) ||
    (analyze_message message (s.turn_count + 1)).2.2

/-- One turn of `HybridScamDetector.detect`, returning the updated session
and the `scamDetected` field of the emitted verdict.  `stage_patterns` is
the output of `detect_stage_patterns` on the message (passed through as
data). -/
def detectTurn (s : SessionState) (message : String)
    (stage_patterns : List String) (ml : MlResult)
    (llm_response : LLMJudgement) : SessionState × Bool :=
  let s3 := preLlmState s message stage_patterns ml
  let invoke := shouldInvokeLlm s message stage_patterns ml
  let s4 := if invoke then s3.add_llm_judgement llm_response else s3
  (s4, make_decision_scamDetected s4
    (analyze_message message (s.turn_count + 1)).2.2 ml.is_scam
    (if invoke then some llm_response else none))

/-! ## Intelligence extractor (`app/intelligence_extractor.py`)

`ExtractedIntelligence` is the pydantic model of `app/models.py`.  The
extractor's per-session bookkeeping (`extraction_history`, `turn_counter`,
`_record_extraction`) only records metadata and never feeds back into the
extraction results, so it is omitted here; `extract` is the pure function
from `(text, current_intelligence, scam_stage)` to the updated
intelligence. -/

structure ExtractedIntelligence where
  bankAccounts : List String := []
  upiIds : List String := []
  phishingLinks : List String := []
  phoneNumbers : List String := []
  suspiciousKeywords : List String := []
deriving DecidableEq, Repr

/-- UPI PSP handle allowlist, in source order (alternation order matters). -/
def upiHandles : List String :=
  ["upi", "paytm", "okaxis", "okicici", "okhdfcbank", "oksbi", "ybl", "apl",
   "ibl", "axl", "kotak", "icici", "sbi", "hdfc", "axis", "idfcfirst",
   "indus", "federal", "rbl", "yes", "pnb", "boi", "bob", "canara", "union",
   "idbi", "citi", "hsbc", "sc", "dbs", "ubi", "equitas", "bandhan", "au",
   "fino", "payzapp", "airtel", "jio", "waicici", "wahdfcbank", "wasbi",
   "waaxis", "freecharge", "mobikwik", "amazonpay", "phonepe", "gpay"]

/-- Source: `[a-zA-Z0-9._-]{2,256}@(?:upi|paytm|…)` -/
def upiPattern : RE :=
  catL [RE.rep (.cls (fun c => c.isAlphanum || c = '.' || c = '_' || c = '-'))
          2 (some 256),
        RE.lit '@', altL (upiHandles.map strI)]

/-- Source: `\b\d{9,18}\b` -/
def bankAccountPattern : RE := wordBnd (RE.rep digitC 9 (some 18))

/-- Source: `\b[A-Z]{4}0[A-Z0-9]{6}\b` with `re.IGNORECASE`. -/
def ifscPattern : RE :=
  wordBnd (catL [RE.rep (.cls Char.isAlpha) 4 (some 4), RE.lit '0',
                 RE.rep (.cls Char.isAlphanum) 6 (some 6)])

/-- Source: `[\s.-]` (phone separator class). -/
def phoneSepC : RE := .cls (fun c => isSpaceChar c || c = '.' || c = '-')

/-- Source: `(?:\+91[\s.-]?)?(?:0)?[6-9]\d{9}|\+91\s?\d{5}\s?\d{5}|[6-9]\d{2}[\s.-]?\d{3}[\s.-]?\d{4}` -/
def phoneIndianPattern : RE :=
  altL [
    catL [RE.opt (catL [strR "+91", RE.opt phoneSepC]), RE.opt (RE.lit '0'),
          .cls (fun c => '6' ≤ c ∧ c ≤ '9'), RE.rep digitC 9 (some 9)],
    catL [strR "+91", RE.opt wsC, RE.rep digitC 5 (some 5), RE.opt wsC,
          RE.rep digitC 5 (some 5)],
    catL [.cls (fun c => '6' ≤ c ∧ c ≤ '9'), RE.rep digitC 2 (some 2),
          RE.opt phoneSepC, RE.rep digitC 3 (some 3), RE.opt phoneSepC,
          RE.rep digitC 4 (some 4)]]

/-- Source: `https?://(?:www\.)?[-a-zA-Z0-9@:%._\+~#=]{1,256}\.[a-zA-Z0-9()]{1,6}\b(?:[-a-zA-Z0-9()@:%_\+.~#?&//=]*)` -/
def urlPattern : RE :=
  catL [strI "http", RE.opt (RE.litI 's'), strR "://",
        RE.opt (catL [strI "www", RE.lit '.']),
        RE.rep (.cls (fun c => c.isAlphanum ||
          c ∈ ['-', '@', ':', '%', '.', '_', '+', '~', '#', '='])) 1 (some 256),
        RE.lit '.',
        RE.rep (.cls (fun c => c.isAlphanum || c = '(' || c = ')')) 1 (some 6),
        .wb,
        RE.star (.cls (fun c => c.isAlphanum ||
          c ∈ ['-', '(', ')', '@', ':', '%', '_', '+', '.', '~', '#', '?',
               '&', '/', '=']))]

/-- Shortener domains of the `short_url` pattern, in source order. -/
def shortUrlDomains : List String :=
  ["bit.ly", "tinyurl.com", "t.co", "goo.gl", "ow.ly", "is.gd", "buff.ly",
   "adf.ly", "j.mp", "tiny.cc", "cutt.ly", "rb.gy", "shorte.st",
   "shorturl.at", "v.gd", "tr.im", "clck.ru", "bc.vc", "ouo.io"]

/-- Source: `(?:bit\.ly|…|ouo\.io)/[\w\-]+` -/
def shortUrlPattern : RE :=
  catL [altL (shortUrlDomains.map strI), RE.lit '/',
        RE.plus (.cls (fun c => isWordChar c || c = '-'))]

/-- Prefix part of `(?:t\.me/|telegram\.me/|@)([a-zA-Z][a-zA-Z0-9_]{4,31})`. -/
def telegramPre : RE := altL [strI "t.me/", strI "telegram.me/", strR "@"]

/-- Capture group of the telegram pattern. -/
def telegramGrp : RE :=
  catL [.cls Char.isAlpha,
        RE.rep (.cls (fun c => c.isAlphanum || c = '_')) 4 (some 31)]

/-- Prefix part of `(?:wa\.me/|whatsapp\.com/send\?phone=)(\+?\d{10,15})`. -/
def whatsappPre : RE :=
  altL [strI "wa.me/",
        catL [strI "whatsapp.com/send", RE.lit '?', strI "phone="]]

/-- Capture group of the whatsapp pattern. -/
def whatsappGrp : RE := catL [RE.opt (RE.lit '+'), RE.rep digitC 10 (some 15)]

/-- Source: `\b(?:anydesk|teamviewer|quicksupport|ammyy|ultraviewer|airdroid|screenconnect|supremo|rustdesk)\b` -/
def remoteAppsPattern : RE :=
  wordBnd (altL [strI "anydesk", strI "teamviewer", strI "quicksupport",
                 strI "ammyy", strI "ultraviewer", strI "airdroid",
                 strI "screenconnect", strI "supremo", strI "rustdesk"])

/-- Source: `\b(?:qr\s*code|scan\s*(?:this|the)?\s*qr|qr\s*scan)\b` -/
def qrCodePattern : RE :=
  wordBnd (altL [
    catL [strI "qr", RE.star wsC, strI "code"],
    catL [strI "scan", RE.star wsC, RE.opt (altL [strI "this", strI "the"]),
          RE.star wsC, strI "qr"],
    catL [strI "qr", RE.star wsC, strI "scan"]])

/-- The six keyword patterns of `_init_keyword_patterns`, in dict order. -/
def keywordPatterns : List RE := [
  -- urgency
  wordBnd (altL [strI "urgent", strI "immediately", strI "right now",
    strI "asap", strI "quick", strI "hurry",
    catL [strI "within ", RE.plus digitC, strR " ",
          altL [catL [strI "hour", RE.opt (RE.litI 's')],
                catL [strI "minute", RE.opt (RE.litI 's')]]],
    strI "deadline",
    catL [strI "expire", RE.opt (RE.litI 's'), strI " today"],
    catL [strI "last ", altL [strI "chance", strI "warning"]],
    strI "final notice", strI "time sensitive"]),
  -- threat
  wordBnd (altL [
    catL [strI "block", RE.opt (strI "ed")],
    catL [strI "suspend", RE.opt (strI "ed")],
    catL [strI "freez", altL [strI "e", strI "ing"]],
    catL [strI "terminat", altL [strI "e", strI "ed"]],
    catL [strI "seiz", altL [strI "e", strI "ed"]],
    strI "compromised",
    catL [strI "hack", RE.opt (strI "ed")],
    catL [strI "unauthori", altL [strI "s", strI "z"], strI "ed"],
    catL [strI "fraud", RE.opt (strI "ulent")],
    strI "illegal", strI "criminal", strI "arrest", strI "jail",
    strI "penalty", strI "fine", strI "legal action", strI "court",
    strI "police", strI "warrant"]),
  -- authority
  wordBnd (altL [strI "rbi", strI "reserve bank", strI "income tax",
    strI "it department", strI "customs",
    catL [strI "cyber ", altL [strI "cell", strI "crime", strI "police"]],
    strI "cbi", strI "ed", strI "enforcement", strI "sebi",
    strI "government", strI "official", strI "authorized", strI "verified",
    strI "certified", strI "bank manager",
    catL [strI "customer ", altL [strI "care", strI "support"]],
    strI "security team", strI "fraud department", strI "investigation",
    strI "ministry", strI "trai"]),
  -- financial
  wordBnd (altL [strI "otp",
    catL [strI "one", anyC.opt, strI "time", anyC.opt, strI "password"],
    strI "verification code", strI "pin", strI "cvv", strI "card number",
    catL [strI "account ", altL [strI "number", strI "details"]],
    strI "bank details", strI "transfer", strI "send money",
    catL [strI "pay", RE.opt (strI "ment")],
    strI "refund", strI "cashback", strI "prize", strI "lottery",
    strI "winner", strI "claim", strI "reward", strI "bonus",
    strI "processing fee", strI "advance", strI "deposit", strI "emi",
    strI "loan"]),
  -- personal_info
  wordBnd (altL [strI "aadhaar", strI "aadhar",
    catL [strI "pan", RE.opt (altL [strI " card", strI " number"])],
    strI "passport", strI "date of birth", strI "dob",
    catL [strI "mother", RE.opt (RE.lit '\x27'), RE.opt (RE.litI 's'),
          strR " ", RE.opt (strI "maiden "), strI "name"],
    strI "security question", strI "password", strI "login",
    strI "credentials", strI "kyc"]),
  -- phishing
  wordBnd (altL [
    catL [strI "click ", altL [strI "here", strI "this", strI "the link"]],
    catL [strI "visit ", RE.opt (strI "this "), strI "link"],
    catL [strI "download ", RE.opt (strI "this "), strI "app"],
    strI "install",
    catL [strI "update ", altL [strI "app", strI "details"]],
    catL [strI "verify ", altL [strI "account", strI "identity"]],
    catL [strI "fill ", RE.opt (strI "this "), strI "form"],
    strI "remote access", strI "screen share"])]

/-- Keyword part of `IntelligenceExtractor.extract_light`: deduplicated
lowercased stripped matches over the six keyword categories.  The intent
hints and the scam-type signature scan also computed there are discarded by
`extract`, so they are not modelled. -/
def extract_light (text : String) : List String :=
  keywordPatterns.foldl (fun keywords pat =>
    (reFindall pat text).foldl (fun keywords m =>
      let kw := strTrim (strToLower m)
      if kw ≠ "" && !keywords.contains kw then keywords ++ [kw]
      else keywords) keywords) []

/-- Source: `IntelligenceExtractor._extract_upi_ids`. -/
def extract_upi_ids (text : String) (intel : ExtractedIntelligence) :
    ExtractedIntelligence :=
  (reFindall upiPattern text).foldl (fun intel m =>
    let upi := strToLower (strTrim m)
    if upi ≠ "" && !intel.upiIds.contains upi && containsSub upi "@" &&
        upi.length ≥ 5 then
      { intel with upiIds := intel.upiIds ++ [upi] }
    else intel) intel

/-- Context keywords of `_extract_bank_accounts`. -/
def account_context : List String :=
  ["account", "a/c", "acc", "transfer", "bank", "ifsc", "beneficiary"]

/-- 10 digits starting with 6-9 (skipped as phone-shaped). -/
def phoneShaped (acc : String) : Bool :=
  acc.length = 10 &&
    (match acc.data with
     | c :: _ => c = '6' || c = '7' || c = '8' || c = '9'
     | [] => false)

/-- Source: `IntelligenceExtractor._extract_bank_accounts` (including the IFSC
part). -/
def extract_bank_accounts (text : String) (intel : ExtractedIntelligence) :
    ExtractedIntelligence :=
  let has_context := account_context.any
    (fun ctx => containsSub (strToLower text) ctx)
  let intel := (reFindall bankAccountPattern text).foldl (fun intel acc =>
    if phoneShaped acc then intel
    else if (has_context || acc.length ≥ 11) &&
        !intel.bankAccounts.contains acc then
      { intel with bankAccounts := intel.bankAccounts ++ [acc] }
    else intel) intel
  (reFindall ifscPattern text).foldl (fun intel ifsc =>
    let entry := "IFSC:" ++ strToUpper ifsc
    if !intel.bankAccounts.contains entry then
      { intel with bankAccounts := intel.bankAccounts ++ [entry] }
    else intel) intel

/-- The normalization step of `_extract_phone_numbers`:
`re.sub(r'[\s.-]', '', phone)` followed by `+91`/`91`/`0` prefix
stripping. -/
def normalizePhone (raw : String) : String :=
  let phone := String.mk (raw.data.filter
    (fun c => !(isSpaceChar c || c = '.' || c = '-')))
  if strStartsWith phone "+91" then phone.drop 3
  else if strStartsWith phone "91" && phone.length = 12 then phone.drop 2
  else if strStartsWith phone "0" then phone.drop 1
  else phone

/-- Source: `IntelligenceExtractor._extract_phone_numbers`. -/
def extract_phone_numbers (text : String) (intel : ExtractedIntelligence) :
    ExtractedIntelligence :=
  (reFindall phoneIndianPattern text).foldl (fun intel m =>
    let phone := normalizePhone m
    if phone.length = 10 && !intel.phoneNumbers.contains phone then
      { intel with phoneNumbers := intel.phoneNumbers ++ [phone] }
    else intel) intel

/-- Trusted domains skipped by `_extract_urls`. -/
def trusted_domains : List String :=
  ["google.com", "facebook.com", "amazon.in", "flipkart.com", "paytm.com",
   "sbi.co.in", "hdfcbank.com"]

/-- Source: `IntelligenceExtractor._extract_urls`. -/
def extract_urls (text : String) (intel : ExtractedIntelligence) :
    ExtractedIntelligence :=
  let intel := (reFindall urlPattern text).foldl (fun intel url =>
    if url ≠ "" && !intel.phishingLinks.contains url then
      if !(trusted_domains.any (fun t => containsSub (strToLower url) t)) then
        { intel with phishingLinks := intel.phishingLinks ++ [url] }
      else intel
    else intel) intel
  (reFindall shortUrlPattern text).foldl (fun intel short =>
    let full_url := if !strStartsWith short "http" then "https://" ++ short
                    else short
    if !intel.phishingLinks.contains full_url then
      { intel with phishingLinks := intel.phishingLinks ++ [full_url] }
    else intel) intel

/-- Telegram-handle loop of `_extract_additional_intel`. -/
def telegram_fold (text : String) (intel : ExtractedIntelligence) :
    ExtractedIntelligence :=
  (reFindall2 telegramPre telegramGrp text).foldl (fun intel h =>
    let handle := if !strStartsWith h "@" then "@" ++ h else h
    let entry := "telegram:" ++ handle
    if !intel.suspiciousKeywords.contains entry then
      { intel with suspiciousKeywords := intel.suspiciousKeywords ++ [entry] }
    else intel) intel

/-- WhatsApp-number loop of `_extract_additional_intel`: the captured
number is appended to `phoneNumbers` verbatim. -/
def whatsapp_fold (text : String) (intel : ExtractedIntelligence) :
    ExtractedIntelligence :=
  (reFindall2 whatsappPre whatsappGrp text).foldl (fun intel num =>
    if !intel.phoneNumbers.contains num then
      { intel with phoneNumbers := intel.phoneNumbers ++ [num] }
    else intel) intel

/-- Remote-access-app loop of `_extract_additional_intel`. -/
def remote_fold (text : String) (intel : ExtractedIntelligence) :
    ExtractedIntelligence :=
  (reFindall remoteAppsPattern text).foldl (fun intel app =>
    let entry := "remote_app:" ++ strToLower app
    if !intel.suspiciousKeywords.contains entry then
      { intel with suspiciousKeywords := intel.suspiciousKeywords ++ [entry] }
    else intel) intel

/-- QR-code-mention update of `_extract_additional_intel`. -/
def qr_update (text : String) (intel : ExtractedIntelligence) :
    ExtractedIntelligence :=
  if reTest qrCodePattern text then
    if !intel.suspiciousKeywords.contains "qr_code_mentioned" then
      { intel with
        suspiciousKeywords := intel.suspiciousKeywords ++ ["qr_code_mentioned"] }
    else intel
  else intel

/-- Source: `IntelligenceExtractor._extract_additional_intel`: telegram handles,
WhatsApp numbers, remote-access apps, QR-code mentions, in source order. -/
def extract_additional_intel (text : String) (intel : ExtractedIntelligence) :
    ExtractedIntelligence :=
  qr_update text (remote_fold text (whatsapp_fold text (telegram_fold text intel)))

/-- Source: `IntelligenceExtractor.extract_heavy`. -/
def extract_heavy (text : String) (intel : ExtractedIntelligence) :
    ExtractedIntelligence :=
  extract_additional_intel text
    (extract_urls text
      (extract_phone_numbers text
        (extract_bank_accounts text
          (extract_upi_ids text intel))))

/-- The keyword-merge loop of `IntelligenceExtractor.extract`
(`if kw not in current_intelligence.suspiciousKeywords: … .append(kw)`). -/
def merge_keywords (intel : ExtractedIntelligence) (keywords : List String) :
    ExtractedIntelligence :=
  keywords.foldl (fun intel kw =>
    if !intel.suspiciousKeywords.contains kw then
      { intel with suspiciousKeywords := intel.suspiciousKeywords ++ [kw] }
    else intel) intel

/-- Source: `IntelligenceExtractor.extract`: light extraction always; heavy
extraction gated on the current scam stage. -/
def extract (text : String) (intel : ExtractedIntelligence)
    (scam_stage : ScamStage) : ExtractedIntelligence :=
  let intel := merge_keywords intel (extract_light text)
  if scam_stage ∈ [ScamStage.TRUST, .THREAT, .ACTION, .CONFIRMED] then
    extract_heavy text intel
  else intel

/-! ## Safety validator (`SafetyValidator` in `app/agent_controller.py`)

All patterns are compiled with `re.IGNORECASE`. -/

/-- Source: `\s*(?:is|:)?\s*` (shared glue in the forbidden patterns). -/
def isGlue : RE :=
  catL [RE.star wsC, RE.opt (altL [strI "is", strR ":"]), RE.star wsC]

/-- Source: `(?:number|no\.?)?` -/
def optNumberWord : RE :=
  RE.opt (altL [strI "number", catL [strI "no", RE.opt (RE.lit '.')]])

/-- The class of letters, digits, `/` and `-` (the case/FIR reference
character class, under `re.IGNORECASE`). -/
def caseRefC : RE := .cls (fun c => c.isAlphanum || c = '/' || c = '-')

/-- Source: `SafetyValidator.FORBIDDEN_PATTERNS` (sensitive-data leakage). -/
def FORBIDDEN_PATTERNS : List RE := [
  catL [.wb, altL [strI "otp",
          catL [strI "o", RE.lit '.', strI "t", RE.lit '.', strI "p"]],
        isGlue, RE.rep digitC 4 (some 8), .wb],
  catL [.wb, altL [strI "pin", strI "mpin",
          catL [strI "upi", RE.star wsC, strI "pin"]],
        isGlue, RE.rep digitC 4 (some 6), .wb],
  catL [.wb, altL [strI "cvv", strI "cvc"], isGlue,
        RE.rep digitC 3 (some 4), .wb],
  catL [.wb, strI "code", isGlue, RE.rep digitC 4 (some 8), .wb],
  catL [.wb, altL [strI "account", strI "a/c"], RE.star wsC,
        RE.opt (altL [strI "number", catL [strI "no", RE.opt (RE.lit '.')],
                      strR "#"]),
        isGlue, RE.rep digitC 9 (some 18), .wb],
  catL [.wb, strI "ifsc", RE.star wsC,
        RE.opt (altL [strI "code", strR ":"]), RE.star wsC,
        RE.rep (.cls Char.isAlpha) 4 (some 4), RE.lit '0',
        RE.rep (.cls Char.isAlphanum) 6 (some 6), .wb],
  catL [.wb, altL [strI "upi", strI "vpa"], RE.star wsC,
        RE.opt (altL [strI "id", strR ":"]), RE.star wsC,
        RE.plus notWsC, RE.lit '@', RE.plus notWsC, .wb],
  catL [.wb, strI "my", RE.plus wsC, altL [strI "upi", strI "vpa"], isGlue,
        RE.plus notWsC, RE.lit '@', RE.plus notWsC, .wb],
  catL [.wb, altL [strI "card", strI "debit", strI "credit"], RE.star wsC,
        optNumberWord, isGlue, RE.rep digitC 13 (some 19), .wb],
  catL [.wb, altL [strI "aadhaar", strI "aadhar"], RE.star wsC,
        optNumberWord, isGlue, RE.rep digitC 4 (some 4), RE.star wsC,
        RE.rep digitC 4 (some 4), RE.star wsC, RE.rep digitC 4 (some 4), .wb],
  catL [.wb, strI "pan", RE.star wsC, optNumberWord, isGlue,
        RE.rep (.cls Char.isAlpha) 5 (some 5), RE.rep digitC 4 (some 4),
        .cls Char.isAlpha, .wb],
  catL [.wb, altL [strI "fir", strI "case"], RE.star wsC, optNumberWord,
        isGlue, RE.rep caseRefC 5 none, .wb],
  catL [.wb, altL [strI "complaint", strI "reference"], RE.star wsC,
        optNumberWord, isGlue, RE.rep caseRefC 5 none, .wb]]

/-- Source: `SafetyValidator.AUTHORITY_IMPERSONATION`. -/
def AUTHORITY_IMPERSONATION : List RE := [
  catL [.wb, strI "i", RE.plus wsC, strI "am", RE.plus wsC,
        RE.opt (catL [strI "a", RE.plus wsC]),
        altL [strI "police", strI "inspector", strI "officer",
              strI "constable"], .wb],
  catL [.wb, strI "i", RE.plus wsC, strI "am", RE.plus wsC,
        RE.opt (catL [strI "from", RE.plus wsC]),
        altL [strI "cid", strI "cbi", strI "ib", strI "raw",
              strI "enforcement"], .wb],
  catL [.wb, strI "i", RE.plus wsC, strI "am", RE.plus wsC,
        RE.opt (catL [strI "from", RE.plus wsC]),
        strI "cyber", RE.star wsC,
        altL [strI "cell", strI "crime", strI "police"], .wb],
  catL [.wb, strI "i", RE.plus wsC, strI "am", RE.plus wsC,
        RE.opt (catL [strI "a", RE.plus wsC]),
        RE.opt (catL [strI "the", RE.plus wsC]),
        strI "bank", RE.star wsC,
        altL [strI "manager", strI "officer", strI "official",
              strI "employee"], .wb],
  catL [.wb, strI "i", RE.plus wsC,
        RE.opt (catL [strI "work", RE.plus wsC]),
        altL [strI "at", strI "for", strI "with"], RE.plus wsC,
        RE.opt (catL [strI "the", RE.plus wsC]),
        altL [strI "police", strI "cid", strI "bank", strI "rbi"], .wb],
  catL [.wb, strI "this", RE.plus wsC, strI "is", RE.plus wsC,
        RE.opt (catL [strI "the", RE.plus wsC]),
        altL [strI "police", catL [strI "cyber", RE.star wsC, strI "cell"],
              strI "bank", strI "rbi"], .wb],
  catL [.wb, strI "speaking", RE.plus wsC, strI "from", RE.plus wsC,
        RE.opt (catL [strI "the", RE.plus wsC]),
        altL [strI "police", strI "cyber", strI "bank", strI "rbi"], .wb],
  catL [.wb, strI "i", RE.plus wsC, strI "am", RE.plus wsC, strI "the",
        RE.plus wsC, RE.opt (catL [strI "bank", RE.plus wsC]),
        strI "manager", .wb]]

/-- Source: `SafetyValidator.OVER_COMPLIANCE_PATTERNS`. -/
def OVER_COMPLIANCE_PATTERNS : List RE := [
  catL [.wb, strI "here", RE.plus wsC, altL [strI "is", strI "are"],
        RE.plus wsC, altL [strI "my", strI "the"], RE.plus wsC,
        altL [strI "otp", strI "pin", strI "code", strI "account",
              strI "details"], .wb],
  catL [.wb, strI "i", RE.plus wsC, altL [strI "am", strI "will"],
        RE.plus wsC,
        altL [strI "sending", strI "sharing", strI "giving", strI "telling"],
        RE.plus wsC, RE.opt (catL [strI "you", RE.plus wsC]),
        altL [strI "my", strI "the"], RE.plus wsC,
        altL [strI "otp", strI "pin"], .wb],
  catL [.wb, strI "let", RE.plus wsC, strI "me", RE.plus wsC,
        altL [strI "share", strI "send", strI "give", strI "tell"],
        RE.plus wsC, RE.opt (catL [strI "you", RE.plus wsC]),
        altL [strI "my", strI "the"], RE.plus wsC,
        altL [strI "otp", strI "pin", strI "code"], .wb],
  catL [.wb, strI "take", RE.plus wsC,
        RE.opt (catL [strI "down", RE.plus wsC]),
        altL [strI "my", strI "these"], RE.plus wsC,
        altL [strI "details", strI "information", strI "account"], .wb],
  catL [.wb, strI "i", RE.plus wsC,
        RE.opt (catL [strI "have", RE.plus wsC]),
        altL [strI "transferred", strI "sent", strI "paid"], RE.plus wsC,
        RE.opt (catL [strI "the", RE.plus wsC]),
        altL [strI "money", strI "amount", strI "rs"], .wb]]

/-- Number of sensitive-data violations `validate_output` records. -/
def sensitiveViolations (text : String) : Nat :=
  (FORBIDDEN_PATTERNS.filter (fun p => reTest p text)).length

/-- Number of authority-impersonation violations. -/
def authorityViolations (text : String) : Nat :=
  (AUTHORITY_IMPERSONATION.filter (fun p => reTest p text)).length

/-- Number of over-compliance violations. -/
def overComplianceViolations (text : String) : Nat :=
  (OVER_COMPLIANCE_PATTERNS.filter (fun p => reTest p text)).length

/-- The `is_safe` component of `SafetyValidator.validate_output`
(`is_safe = len(violations) == 0`; the text is returned unmodified). -/
def validate_output_is_safe (text : String) : Bool :=
  sensitiveViolations text = 0 && authorityViolations text = 0 &&
    overComplianceViolations text = 0

/-! ## Agent reply pools (`AgentController` in `app/agent_controller.py`) -/

inductive Lang where
  | hindi | english
deriving DecidableEq, Repr

/-- One language's entry of `_init_language_templates`. -/
structure LanguageTemplates where
  confusion : List String
  stalling : List String
  followup : List String
  termination : List String

/-- Source: `self.language_templates`. -/
def language_templates : Lang → LanguageTemplates
  | .hindi =>
    { confusion := ["Samajh nahi aaya.", "Kya matlab?",
        "Arre, mujhe confuse ho raha hai.", "Thoda slow bolo na.",
        "Acha acha, phir?"]
      stalling := ["Ek second ruko.", "Haan haan, suno.", "Achha theek hai.",
        "Hmm, phir?"]
      followup := ["Iske baad kya karna hai?", "Phir kya hoga?",
        "Aur kuch karna padega?", "Kitna time lagega?",
        "Aap batayenge na kya karna hai?"]
      termination := ["Theek hai, thodi der baad karta hoon.",
        "Abhi phone charge pe lagata hoon.", "Baad mein baat karte hain.",
        "Achha theek hai, sochta hoon."] }
  | .english =>
    { confusion := ["Sorry, didn\x27t understand.", "What do you mean?",
        "I\x27m confused.", "Can you say that again?", "Okay okay, then?"]
      stalling := ["One second.", "Yes yes, go on.", "Okay, fine.",
        "Hmm, then?"]
      followup := ["What do I do after that?", "Then what happens?",
        "Anything else I need to do?", "How long will it take?",
        "You\x27ll tell me what to do right?"]
      termination := ["Okay, I\x27ll do it later.",
        "Let me charge my phone first.", "Talk later, bye.",
        "Okay let me think about it."] }

/-- Source: `self.natural_questions` (`_init_post_detection_questions`). -/
def natural_questions : Lang → List String
  | .hindi =>
    ["Iske baad kya karna hoga?", "Phir kya hoga?", "Kitna time lagega?",
     "Aur kuch karna padega kya?", "Koi problem toh nahi hogi na?",
     "Safe hai na yeh?", "Sahi se ho jayega na?", "Achha, phir?",
     "Theek hai, aage batao.", "Hmm, phir kya?"]
  | .english =>
    ["What do I do after that?", "Then what happens?",
     "How long will it take?", "Do I need to do anything else?",
     "There won\x27t be any problem right?", "This is safe right?",
     "It will work properly right?", "Okay, then?", "Alright, go on.",
     "Hmm, then what?"]

/-- Source: `self.templates` (`_init_response_templates`). -/
def response_templates : List (String × List String) := [
  ("confusion", ["Wait, what? I don\x27t understand.",
    "Sorry, can you explain again?", "I\x27m confused, what do you mean?",
    "Arey, samjha nahi."]),
  ("concern", ["Is this okay? I\x27m worried.", "Will there be any problem?",
    "This sounds serious.", "I\x27m getting worried now."]),
  ("deflection", ["Let me think about it.", "I need to ask my family first.",
    "Okay, I\x27ll do it later.", "Wait, someone is calling me."]),
  ("stalling", ["Hold on, one minute.", "Wait, my phone is low battery.",
    "Network is poor here.", "Someone is at the door."]),
  ("followup", ["Then what happens?", "What do I do next?",
    "How long will this take?", "Okay, then?"])]

/-- The deflection pools of `SafetyValidator.get_safe_deflection`. -/
def deflection_pools : List (String × List String) := [
  ("otp_request",
    ["Wait, I think I deleted that message by mistake. Can you send it again?",
     "Arey, my phone is showing low battery. Let me charge it first.",
     "The OTP? Let me check... I\x27m getting so many messages, it\x27s confusing.",
     "Hold on, my daughter is calling me. Can I call you back?",
     "Sorry, I can\x27t find that message. Is there another way to verify?"]),
  ("pin_request",
    ["PIN? I don\x27t remember it. I always use fingerprint for my payments.",
     "Wait, which PIN are you asking for? I have so many different ones.",
     "I\x27m confused, should I really share my PIN? My son told me never to share it.",
     "Let me ask my husband first, he handles all the banking.",
     "Arey, I don\x27t know my PIN by heart. I\x27ll need to find where I wrote it."]),
  ("account_request",
    ["I don\x27t have my passbook with me right now. It\x27s at home.",
     "Account number? Let me check my bank app... it\x27s taking time to load.",
     "I\x27m not near my computer. Can I send it later?",
     "Which account are you asking about? I have multiple bank accounts.",
     "Wait, let me call my bank first to confirm this is safe."]),
  ("payment_request",
    ["I need to ask my family before sending any money.",
     "My account has a daily limit. I don\x27t think I can send that much.",
     "Can you explain again why I need to send money to receive a refund?",
     "Let me first verify this with my bank. What\x27s the official number?",
     "I\x27m confused. Usually money comes TO me, why should I send it?"]),
  ("default",
    ["Sorry, I didn\x27t understand. Can you explain that again?",
     "My network is very poor right now. Can you repeat that?",
     "Wait, someone is at the door. Give me one minute.",
     "I\x27m getting confused with all these steps. Can we start over?",
     "Arey, let me write this down. You\x27re going too fast for me."])]

/-- The generic error reply of `chat_handler` in `app/main.py`. -/
def chat_error_reply : String :=
  "I\x27m having trouble understanding. Could you repeat that?"

/-- The minimal acknowledgments of `_get_natural_question` when every
question and filler is exhausted. -/
def minimal_ack (language : Lang) : String :=
  match language with
  | .hindi => "Phir?"
  | .english => "Then?"

/-! ## Agent reply generation (`AgentController.generate_response`)

The anti-loop conversation memory (`AgentMemory`, `session.add_turn`,
`session.is_question_blocked`, `session.get_unused_filler`,
`session.build_agent_memory`, `session.check_stall`) is referenced by
`agent_controller.py` and `main.py` but its definitions are absent from the
source tree (`SessionState` in `app/risk_engine.py` does not carry them).
Following the spec (§4.8), those oracles only decide *which* candidate from
a fixed pool is chosen, so they are modelled as explicit inputs
(`GenOracle`): `blocked` is `is_question_blocked`, the `Option Nat` fields
are the outcome of `get_unused_filler` (an index into the pool, or `none`
when every entry was used), the `Nat` fields stand for `random.choice`
indices, and `llm_attempts` lists the external LLM completions per attempt
(`none` = the call raised). -/

structure GenOracle where
  should_terminate : Bool
  unused_term : Option Nat
  rand_term : Nat
  blocked : String → Bool
  unused_stall : Option Nat
  llm_client : Bool
  llm_attempts : List (Option String)
  rand_fallback : Nat

/-- Source: `random.choice(pool)` / `get_unused_filler(pool)` abstracted as an index
reduced modulo the pool size, so any oracle value picks an element of the
pool. -/
def pickMod (pool : List String) (i : Nat) : String :=
  pool.getD (i % pool.length) ""

/-- Python `str.strip('"\'')`. -/
def pyStripChars (cs : List Char) (s : String) : String :=
  String.mk (((s.data.dropWhile (· ∈ cs)).reverse.dropWhile (· ∈ cs)).reverse)

/-- Source: `re.split(r'(?<=[.!?।])\s+', text)`: cut after a sentence terminator
followed by a whitespace run (the run is the separator). -/
def sentenceSplitAux (s : List Char) (acc : List Char) : List String :=
  match s with
  | [] => [String.mk acc.reverse]
  | c :: rest =>
    if ((c = '.' || c = '!' || c = '?' || c = '।') &&
        (match rest with | r :: _ => isSpaceChar r | [] => false) : Bool) then
      String.mk (c :: acc).reverse ::
        sentenceSplitAux (rest.dropWhile isSpaceChar) []
    else
      sentenceSplitAux rest (c :: acc)
termination_by s.length
decreasing_by
  · have := (List.dropWhile_suffix (l := rest) isSpaceChar).sublist.length_le
    simp; omega
  · simp

/-- Source: `AgentController._enforce_length_limit`. -/
def enforce_length_limit (text : String) (max_sentences : Nat) : String :=
  let sentences := sentenceSplitAux text.trim.data []
  if sentences.length ≤ max_sentences then text.trim
  else String.intercalate " " (sentences.take max_sentences)

/-- The reply post-processing in the pre-detection branch of
`generate_response`: `.strip()`, `strip('"\'')`, drop a leading `Me:`,
one-sentence length enforcement. -/
def cleanReply (raw : String) : String :=
  let reply := raw.trim
  let reply := pyStripChars ['\"', '\x27'] reply
  let reply := if reply.startsWith "Me:" then (reply.drop 3).trim else reply
  enforce_length_limit reply 1

/-- Source: `AgentController._get_fallback_response_language`. -/
def get_fallback_response_language (stage : ScamStage) (language : Lang)
    (randIdx : Nat) : String :=
  let t := language_templates language
  if stage = .NORMAL ∨ stage = .HOOK then pickMod t.confusion randIdx
  else if stage = .TRUST ∨ stage = .THREAT then
    pickMod (t.confusion ++ t.followup) randIdx
  else pickMod (t.followup ++ t.stalling) randIdx

/-- Source: `AgentController._get_natural_question` (the returned intent tag is
dropped; `blocked` already accounts for it). -/
def get_natural_question (language : Lang) (blocked : String → Bool)
    (unused_stall : Option Nat) : String :=
  match (natural_questions language).find? (fun q => !blocked q) with
  | some q => q
  | none =>
    match unused_stall with
    | some i => pickMod (language_templates language).stalling i
    | none => minimal_ack language

/-- The pre-detection LLM attempt loop of `generate_response`
(`max_attempts = 2`): on an exception or a missing client fall back to the
template pool; an unsafe reply is retried, then replaced by the fallback. -/
def attemptLoop (o : GenOracle) (stage : ScamStage) (language : Lang) :
    List (Option String) → Nat → String
  | _, 0 => get_fallback_response_language stage language o.rand_fallback
  | attempts, n + 1 =>
    if !o.llm_client then
      get_fallback_response_language stage language o.rand_fallback
    else
      match attempts with
      | [] => get_fallback_response_language stage language o.rand_fallback
      | none :: _ => get_fallback_response_language stage language o.rand_fallback
      | some raw :: rest =>
        let reply := cleanReply raw
        if validate_output_is_safe reply then reply
        else attemptLoop o stage language rest n

/-- Source: `AgentController.generate_response`, as the pure reply-selection
function: termination, post-detection natural questions, or the
pre-detection LLM loop with safety validation. -/
def generate_response (o : GenOracle) (stage : ScamStage) (language : Lang)
    (scam_detected : Bool) : String :=
  if o.should_terminate then
    let pool := (language_templates language).termination
    match o.unused_term with
    | some i => pickMod pool i
    | none => pickMod pool o.rand_term
  else if scam_detected || stage ∈ [ScamStage.ACTION, .CONFIRMED, .THREAT] then
    get_natural_question language o.blocked o.unused_stall
  else
    attemptLoop o stage language o.llm_attempts 2

/-! ## Report dispatcher (`app/callback_client.py`) -/

/-- Outcome of one POST to the callback endpoint: an HTTP response with a
status code, or a raised exception (network failure, timeout, …). -/
inductive PostOutcome where
  | ok (status : Nat)
  | error
deriving DecidableEq, Repr

/-- Source: `send_final_result`: true exactly on HTTP 200; any exception is caught
and counts as failure. -/
def send_final_result (outcome : PostOutcome) : Bool :=
  match outcome with
  | .ok status => status = 200
  | .error => false

/-- The retry loop of `send_final_result_with_retry`, from attempt number
`attempt` with `remaining` attempts left: returns
`(attempts performed, sleep durations in seconds, success)`.
`delay = base_delay * 2 ** (attempt - 1)` and the sleep happens only when
`attempt < max_retries`. -/
def retryGo (outcomes : List PostOutcome) (base_delay : Nat) (attempt : Nat) :
    Nat → Nat × List Nat × Bool
  | 0 => (0, [], false)
  | remaining + 1 =>
    if send_final_result (outcomes.getD (attempt - 1) .error) then
      (1, [], true)
    else if remaining = 0 then (1, [], false)
    else
      let delay := base_delay * 2 ^ (attempt - 1)
      let rest := retryGo outcomes base_delay (attempt + 1) remaining
      (rest.1 + 1, delay :: rest.2.1, rest.2.2)

/-- Source: `send_final_result_with_retry(payload, session, max_retries=3,
base_delay=2.0)`: `outcomes` are the successive POST outcomes,
`session` is the session's `callback_sent` flag when a session was passed
(`none` = no session).  Returns the retry trace and the session flag after
the call (cleared on terminal failure to allow a later turn to re-arm). -/
def send_final_result_with_retry (outcomes : List PostOutcome)
    (session : Option Bool) (max_retries : Nat := 3) (base_delay : Nat := 2) :
    (Nat × List Nat × Bool) × Option Bool :=
  let run := retryGo outcomes base_delay 1 max_retries
  if run.2.2 then (run, session)
  else (run, session.map (fun _ => false))

/-! ## Language locking (`chat_handler` in `app/main.py`)

The session attribute `locked_language` and the methods
`lock_language` / `get_locked_language` are referenced by `main.py` and
`agent_controller.py` but absent from `SessionState` in the source tree;
they are modelled from the spec below.  The *detection* logic is fully
present in `main.py` and embedded faithfully here. -/

/-- The romanized-Hindi marker words of `chat_handler`. -/
def hindi_words_main : List String :=
  ["kya", "hai", "hain", "mujhe", "aap", "aapka", "hoon",
   "nahi", "bhai", "beta", "ji", "accha", "theek", "batao",
   "bhejo", "abhi", "madad", "mera", "naam", "aapke", "karo",
   "karna", "hoga", "padega", "dijiye", "kijiye", "bolo",
   "suno", "dekho", "jaldi", "turant", "paise", "rupay"]

/-- One character of the Devanagari block `[ऀ-ॿ]`. -/
def isDevanagari (c : Char) : Bool :=
  0x900 ≤ c.toNat && c.toNat ≤ 0x97F

/-- The language auto-detection `chat_handler` runs on the session's first
inbound message: Devanagari ⇒ hindi; else ≥ 2 romanized-Hindi marker words
⇒ hindi; else english. -/
def detect_language_first_message (text : String) : Lang :=
  let text_lower := strToLower text
  if text_lower.data.any isDevanagari then .hindi
  else if (hindi_words_main.filter
      (fun w => containsSub text_lower w)).length ≥ 2 then .hindi
  else .english

/-- Modelled from the spec: `SessionState.lock_language` (absent from the
source tree; only its callers survive).  Spec §3: "lockedLanguage: one of
{hindi, english} or unset. Invariant: once set, cannot change." -/
def lock_language (locked : Option Lang) (lang : Lang) : Option Lang :=
  match locked with
  | some l => some l
  | none => some lang

/-- The per-turn language handling of `chat_handler`: detection runs only
while `locked_language is None` (both in `main.py` and in the
`generate_response` safety net). -/
def language_lock_step (locked : Option Lang) (msg : String) : Option Lang :=
  match locked with
  | some l => some l
  | none => lock_language none (detect_language_first_message msg)

/-! ## Lightweight ML detector (`app/ml_detector.py`)

`LightweightMLDetector.predict` computes a deterministic weighted feature
score (`self.bias` plus the ten features named in `self.weights`) and
squashes it through a logistic: `probability = 1 / (1 + exp(-score * 2))`.
The conversation-level features (`conversation_length`,
`escalation_ratio`, `scam_word_repetition`) carry no weight, so the
per-message score is independent of the history argument.  The linear
part is embedded as exact rational arithmetic (`mlLinearScore`); the
Python float evaluation of the same expression differs from the exact
value by far less than `1e-9`, while every confidence cutoff read
downstream (0.6, 0.7, 0.8, 0.9) is at distance `> 0.01` from the
probabilities arising in the proofs, so all cutoff comparisons agree with
the float run.  The logistic itself is transcendental and is modelled as
the real number `mlProbability`; the pipeline reads it only through the
cutoffs (`detectTurn_ml_conf_bucket`). -/

/-- Source: `self.scam_ngrams` of `FeatureExtractor._init_feature_weights`,
with their weights. -/
def scam_ngrams : List (String × Rat) := [
  ("act now", 3), ("immediately", 2.5), ("urgent", 2.5), ("right now", 2),
  ("don\x27t delay", 2.5), ("limited time", 2), ("expires today", 2.5),
  ("last chance", 2.5), ("final warning", 3),
  ("account blocked", 3.5), ("account suspended", 3.5), ("legal action", 3),
  ("police complaint", 3.5), ("arrest warrant", 4), ("court case", 3),
  ("will be blocked", 3), ("will be suspended", 3),
  ("share otp", 4), ("send otp", 4), ("otp number", 3.5),
  ("verification code", 2.5), ("bank details", 3), ("account number", 2.5),
  ("transfer money", 3), ("upi id", 3), ("upi pin", 4), ("atm pin", 4),
  ("cvv number", 4),
  ("rbi", 3), ("reserve bank", 3), ("income tax", 3), ("cyber cell", 3.5),
  ("police", 2.5), ("government official", 3), ("bank manager", 2.5),
  ("customer care", 2),
  ("click here", 2), ("click the link", 2.5), ("download app", 2.5),
  ("install app", 2.5), ("anydesk", 4), ("teamviewer", 4),
  ("screen share", 3.5),
  ("won lottery", 3.5), ("prize money", 3), ("claim reward", 3),
  ("cashback", 2), ("refund", 2)]

/-- Source: `self.safe_ngrams` (negative weights). -/
def safe_ngrams : List (String × Rat) := [
  ("thank you for", -1), ("have a nice day", -1.5), ("how can i help", -1.5),
  ("please let me know", -1), ("feel free to", -1), ("happy to help", -1.5)]

/-- Source: `urgency_words` of `FeatureExtractor.extract_features`. -/
def ml_urgency_words : List String :=
  ["urgent", "immediate", "now", "today", "quick", "fast", "hurry", "asap"]

/-- Source: `threat_words`. -/
def ml_threat_words : List String :=
  ["block", "suspend", "arrest", "legal", "police", "jail", "fine", "penalty"]

/-- Source: `request_words`. -/
def ml_request_words : List String :=
  ["share", "send", "give", "provide", "transfer", "pay", "verify"]

/-- Source: `[a-zA-Z0-9._-]+@[a-zA-Z]{2,}` (`has_upi_pattern`). -/
def upiLoosePattern : RE :=
  catL [RE.plus (.cls (fun c => c.isAlphanum || c = '.' || c = '_' || c = '-')),
    RE.lit '@', RE.rep (.cls Char.isAlpha) 2 none]

/-- Source: `(?:\+91[\-\s]?)?[6-9]\d{9}` (`has_phone_pattern`). -/
def phoneLoosePattern : RE :=
  catL [RE.opt (catL [strR "+91",
      RE.opt (.cls (fun c => c = '-' || isSpaceChar c))]),
    .cls (fun c => c = '6' || c = '7' || c = '8' || c = '9'),
    RE.rep digitC 9 (some 9)]

/-- Source: `\b\d{4}\s?\d{4}\s?\d{4}\b` (`has_aadhaar_pattern`). -/
def aadhaarLoosePattern : RE :=
  catL [.wb, RE.rep digitC 4 (some 4), RE.opt wsC, RE.rep digitC 4 (some 4),
    RE.opt wsC, RE.rep digitC 4 (some 4), .wb]

/-- Source: `https?://\S+` (URL feature scan of `extract_features`). -/
def urlLoosePattern : RE :=
  catL [strR "http", RE.opt (RE.lit 's'), strR "://", RE.plus notWsC]

/-- Source: the safe-domain substrings of the `has_suspicious_url`
feature. -/
def ml_safe_url_parts : List String :=
  ["google", "facebook", "amazon", "flipkart", "paytm", "sbi", "hdfc"]

/-- Source: the weighted linear score of `LightweightMLDetector.predict`:
`score = self.bias + Σ features[f] * self.weights[f]` over the ten
weighted features, with the features as computed by
`FeatureExtractor.extract_features` (ngram containment on the lowercased
text, word-list substring counts, upper-case ratio, and the four
pattern/URL indicator features). -/
def mlLinearScore (text : String) : Rat :=
  let tl := strToLower text
  let ngram_score : Rat :=
    (scam_ngrams.foldl (fun acc g =>
      if containsSub tl g.1 then acc + g.2 else acc) 0) +
    (safe_ngrams.foldl (fun acc g =>
      if containsSub tl g.1 then acc + g.2 else acc) 0)
  let ngram_count : Nat :=
    (scam_ngrams.filter (fun g => containsSub tl g.1)).length
  let caps_ratio : Rat :=
    mkRat ((text.data.filter Char.isUpper).length : Int) (max text.length 1)
  let urls := reFindall urlLoosePattern text
  let has_suspicious_url : Rat :=
    if urls.any (fun u => !(ml_safe_url_parts.any (fun s => containsSub u s)))
    then 1 else 0
  let has_upi : Rat := if reTest upiLoosePattern text then 1 else 0
  let has_phone : Rat := if reTest phoneLoosePattern text then 1 else 0
  let has_aadhaar : Rat := if reTest aadhaarLoosePattern text then 1 else 0
  let urgency_score : Rat :=
    ((ml_urgency_words.filter (fun w => containsSub tl w)).length : Rat) * 0.5
  let threat_score : Rat :=
    ((ml_threat_words.filter (fun w => containsSub tl w)).length : Rat) * 0.7
  let request_score : Rat :=
    ((ml_request_words.filter (fun w => containsSub tl w)).length : Rat) * 0.5
  let bias : Rat := -0.3
  bias + ngram_score * 0.25 + (ngram_count : Rat) * 0.15 +
    threat_score * 0.2 + urgency_score * 0.15 + request_score * 0.1 +
    has_suspicious_url * 0.05 + has_upi * 0.03 + has_phone * 0.02 +
    has_aadhaar * 0.03 + caps_ratio * 0.02

/-- Source: `probability = 1 / (1 + math.exp(-score * 2))` in
`LightweightMLDetector.predict`, as an exact real number. -/
noncomputable def mlProbability (score : Rat) : ℝ :=
  1 / (1 + Real.exp (-(score : ℝ) * 2))

/-- Source: the aggregation of `LightweightMLDetector.predict_conversation`
over the per-message probabilities: `0.7 * max + 0.3 * avg`, multiplied by
1.1 and capped at 1 when at least half the messages were individually
flagged (`probability >= self.scam_threshold`, i.e. `≥ 0.5`; the float
comparison `scam_predictions >= len * 0.5` is exactly `2 * flagged ≥ len`).
Polymorphic over an ordered field so that it both runs on rationals and
instantiates at the real per-message probabilities. -/
def predict_conversation_conf {α : Type} [LinearOrderedField α]
    (probs : List α) : α :=
  match probs with
  | [] => 0
  | p :: ps =>
    let maxC := ps.foldl max p
    let avgC := (p :: ps).foldl (· + ·) 0 / ((p :: ps).length : α)
    let flagged := ((p :: ps).filter (fun q => decide (1/2 ≤ q))).length
    let base := 7/10 * maxC + 3/10 * avgC
    if 2 * flagged ≥ (p :: ps).length then min 1 (base * (11/10)) else base

/-- Source: `HybridScamDetector._run_ml_detection`: the single-message
probability when the history is empty, otherwise the maximum of the
single-message probability and the conversation-level aggregate over
`history + [message]` (`is_scam` is this confidence compared against
`ML_CONFIDENCE_THRESHOLD = 0.6`). -/
def run_ml_confidence {α : Type} [LinearOrderedField α] (msgProb : α)
    (historyProbs : List α) : α :=
  if historyProbs.isEmpty then msgProb
  else max msgProb (predict_conversation_conf (historyProbs ++ [msgProb]))

/-! ### Stage patterns (`CumulativeRiskEngine._init_stage_patterns`)

All patterns are compiled with `re.IGNORECASE`. -/

def stage_patterns : List (String × RE) := [
  ("greeting", wordBnd (altL [strI "hello", strI "hi", strI "dear",
    strI "sir", strI "madam",
    catL [strI "good", RE.plus wsC,
      altL [strI "morning", strI "afternoon", strI "evening"]]])),
  ("introduction", wordBnd (altL [
    catL [strI "i", RE.plus wsC, strI "am"],
    catL [strI "this", RE.plus wsC, strI "is"],
    catL [strI "calling", RE.plus wsC, strI "from"],
    catL [strI "speaking", RE.plus wsC, strI "from"],
    catL [strI "on", RE.plus wsC, strI "behalf"]])),
  ("authority_claim", wordBnd (altL [
    catL [strI "from", RE.plus wsC,
      altL [strI "bank", strI "rbi", strI "police", strI "customs",
        strI "government"]],
    strI "official", strI "department"])),
  ("verification", catL [.wb,
    altL [strI "verify", strI "confirm", strI "validate", strI "check",
      strI "update"],
    RE.plus wsC, altL [strI "your", strI "account", strI "details"], .wb]),
  ("procedure", wordBnd (altL [strI "procedure", strI "process", strI "step",
    strI "follow", strI "simple", strI "easy"])),
  ("credibility", wordBnd (altL [strI "authorized", strI "official",
    strI "verified", strI "genuine", strI "legitimate"])),
  ("urgency", wordBnd (altL [strI "urgent", strI "immediate",
    catL [strI "right", RE.plus wsC, strI "now"], strI "asap",
    strI "quickly"])),
  ("consequence", wordBnd (altL [strI "blocked", strI "suspended",
    strI "frozen", strI "terminated", strI "legal", strI "penalty",
    strI "fine"])),
  ("fear", wordBnd (altL [strI "arrest", strI "jail", strI "court",
    strI "police", strI "complaint", strI "case", strI "fraud"])),
  ("deadline", wordBnd (altL [catL [strI "within", RE.plus wsC,
      RE.plus digitC],
    strI "today", strI "deadline", strI "expires",
    catL [strI "last", RE.plus wsC, strI "chance"]])),
  ("payment_request", catL [.wb,
    altL [strI "pay", strI "transfer", strI "send", strI "deposit"],
    RE.plus wsC, altL [strI "money", strI "amount", strI "rs", strI "₹"],
    .wb]),
  ("otp_request", catL [.wb,
    altL [strI "share", strI "send", strI "tell", strI "give"],
    RE.plus wsC, altL [strI "otp", strI "code", strI "pin"], .wb]),
  ("link_share", catL [.wb,
    altL [strI "click", strI "open", strI "visit", strI "download"],
    RE.plus wsC, altL [strI "link", strI "app", strI "here"], .wb]),
  ("info_request", catL [.wb,
    altL [strI "provide", strI "share", strI "tell", strI "give"],
    RE.plus wsC, altL [strI "details", strI "number", strI "information"],
    .wb])]

/-- Source: `CumulativeRiskEngine.detect_stage_patterns`. -/
def detect_stage_patterns (message : String) : List String :=
  (stage_patterns.filter (fun p => reTest p.2 message)).map Prod.fst

/-! ## Invariants and fixtures -/

/-- The risk-score invariant of the spec: `0 ≤ riskScore ≤ 100`. -/
def RiskInv (s : SessionState) : Prop :=
  0 ≤ s.risk_score ∧ s.risk_score ≤ 100

/-- Reachable-state invariant used for the detector-verdict analysis: a
risk score at or above the CONFIRMED threshold always comes with the
latched `scam_detected` flag (every path that raises the score runs
`_check_risk_thresholds`). -/
def DetectInv (s : SessionState) : Prop :=
  s.risk_score ≥ 70 → s.scam_detected = true

/-- Signal count used by `check_mission_complete`: signals whose type is in
`{financial, otp_request, payment_request}`. -/
def action_signal_count (s : SessionState) : Nat :=
  (s.triggered_signals.filter (fun sig =>
    sig.signal_type ∈ ["financial", "otp_request", "payment_request"])).length

/-- Turn-1 scammer message of the detector-verdict scenario.  Its
deterministic analysis: no hard rule; soft rules `gov_authority` (keyword
"rbi", 1 hit, scaled 24) and `identity_request` (keyword "kyc", 1 hit,
scaled 18) for a message score of 42; no stage pattern matches; ML linear
score exactly `3/5` (scam n-gram "rbi" contributes `3 * 0.25 + 1 * 0.15`
on top of the `-0.3` bias, every other weighted feature is 0), whose
logistic probability lies in `[0.7, 0.8)` (`scenario_ml1_bucket`), so
`_run_ml_detection` flags the message and `apply_ml_score` adds 12. -/
def scenario_msg1 : String := "rbi wants your kyc, fill the form"

/-- The agent reply of turn 1: the session reaches stage THREAT on turn 1
(risk 54 ≥ 50), so `generate_response` takes the post-detection branch and
emits the first unblocked natural question of the english pool.  Its ML
linear score is `-179/600 < 0` (only the upper-case ratio `2/24` carries
weight), so its per-message probability is below `1/2`. -/
def scenario_reply1 : String := "What do I do after that?"

/-- Turn-2 scammer message: innocuous; no rule, no stage pattern, ML
linear score `-3/10 < 0`. -/
def scenario_msg2 : String := "ok"

/-- Turn-1 ML result: the in-repo detector deterministically yields
probability `mlProbability (3/5) ∈ [0.7, 0.8)` for `scenario_msg1`
(`scenario_ml1_bucket`), hence `is_scam = true` (`≥ 0.6`).  The pipeline
reads the confidence only through the 0.6/0.7/0.8/0.9 cutoffs
(`detectTurn_ml_conf_bucket`), so the rational representative `3/4` — in
the same cutoff cell as the true probability — yields exactly the session
state and verdict of the true run. -/
def scenario_ml1 : MlResult := { is_scam := true, confidence := mkRat 3 4 }

/-- Turn-1 LLM judgement of the detector-verdict scenario: the external
judge (`LLMReasoningJudge.judge`, a remote chat-API call) deems the
conversation scam-likely at confidence 0.70 (below the 0.85 latch
threshold) with no risk boost and no stage suggestion. -/
def scenario_j1 : LLMJudgement :=
  { turn_number := 1, is_scam_likely := true, confidence := 0.7,
    scam_type := none, reasoning := "", risk_boost := 0,
    stage_suggestion := none, red_flags := [] }

/-- Turn-2 LLM judgement of the detector-verdict scenario: exactly the
deterministic fallback `_fallback_judgement(2, [])` (no signals fired, so
`risk_count = 0`). -/
def scenario_j2 : LLMJudgement :=
  { turn_number := 2, is_scam_likely := false, confidence := 0.5,
    scam_type := none, reasoning := "Fallback judgement based on signal count",
    risk_boost := 0, stage_suggestion := none, red_flags := [] }

/-- Turn 1 of the detector-verdict scenario. -/
def scenario_turn1 : SessionState × Bool :=
  detectTurn SessionState.init scenario_msg1
    (detect_stage_patterns scenario_msg1) scenario_ml1 scenario_j1

/-- Turn 2 at the low representative of the turn-2 ML confidence
(`< 0.6`, so `is_scam = false` and the ML score is not applied). -/
def scenario_turn2_low : SessionState × Bool :=
  detectTurn scenario_turn1.1 scenario_msg2
    (detect_stage_patterns scenario_msg2)
    { is_scam := false, confidence := mkRat 1 2 } scenario_j2

/-- Turn 2 at the mid representative (`[0.6, 0.7)`: ML applied, +8). -/
def scenario_turn2_mid : SessionState × Bool :=
  detectTurn scenario_turn1.1 scenario_msg2
    (detect_stage_patterns scenario_msg2)
    { is_scam := true, confidence := mkRat 13 20 } scenario_j2

/-- Turn 2 at the high representative (`[0.7, 0.8)`: ML applied, +12).
The true turn-2 confidence is below `0.8` (`scenario_turn2_conf_bound`),
so these three representatives cover every cutoff cell the true run can
be in. -/
def scenario_turn2_high : SessionState × Bool :=
  detectTurn scenario_turn1.1 scenario_msg2
    (detect_stage_patterns scenario_msg2)
    { is_scam := true, confidence := mkRat 3 4 } scenario_j2

/-! ## Helper lemmas about the risk-engine operations -/

@[simp] theorem update_persona_risk (s : SessionState) :
    s.update_persona_for_stage.risk_score = s.risk_score := by
  unfold SessionState.update_persona_for_stage; rfl

@[simp] theorem update_persona_stage (s : SessionState) :
    s.update_persona_for_stage.scam_stage = s.scam_stage := by
  unfold SessionState.update_persona_for_stage; rfl

@[simp] theorem update_persona_detected (s : SessionState) :
    s.update_persona_for_stage.scam_detected = s.scam_detected := by
  unfold SessionState.update_persona_for_stage; rfl

@[simp] theorem update_persona_hard (s : SessionState) :
    s.update_persona_for_stage.hard_rule_triggered = s.hard_rule_triggered := by
  unfold SessionState.update_persona_for_stage; rfl

@[simp] theorem update_persona_mission (s : SessionState) :
    s.update_persona_for_stage.mission_complete = s.mission_complete := by
  unfold SessionState.update_persona_for_stage; rfl

@[simp] theorem update_persona_signals (s : SessionState) :
    s.update_persona_for_stage.triggered_signals = s.triggered_signals := by
  unfold SessionState.update_persona_for_stage; rfl

@[simp] theorem update_persona_turn (s : SessionState) :
    s.update_persona_for_stage.turn_count = s.turn_count := by
  unfold SessionState.update_persona_for_stage; rfl

@[simp] theorem update_persona_intel (s : SessionState) :
    s.update_persona_for_stage.upi_ids = s.upi_ids ∧
    s.update_persona_for_stage.bank_accounts = s.bank_accounts ∧
    s.update_persona_for_stage.phone_numbers = s.phone_numbers ∧
    s.update_persona_for_stage.phishing_links = s.phishing_links := by
  unfold SessionState.update_persona_for_stage
  exact ⟨rfl, rfl, rfl, rfl⟩

@[simp] theorem transition_stage_risk (s : SessionState) (st : ScamStage) :
    (s.transition_stage st).risk_score = s.risk_score := by
  unfold SessionState.transition_stage; simp

@[simp] theorem transition_stage_stage (s : SessionState) (st : ScamStage) :
    (s.transition_stage st).scam_stage = st := by
  unfold SessionState.transition_stage; simp

@[simp] theorem transition_stage_detected (s : SessionState) (st : ScamStage) :
    (s.transition_stage st).scam_detected = s.scam_detected := by
  unfold SessionState.transition_stage; simp

@[simp] theorem transition_stage_hard (s : SessionState) (st : ScamStage) :
    (s.transition_stage st).hard_rule_triggered = s.hard_rule_triggered := by
  unfold SessionState.transition_stage; simp

@[simp] theorem transition_stage_mission (s : SessionState) (st : ScamStage) :
    (s.transition_stage st).mission_complete = s.mission_complete := by
  unfold SessionState.transition_stage; simp

@[simp] theorem transition_stage_signals (s : SessionState) (st : ScamStage) :
    (s.transition_stage st).triggered_signals = s.triggered_signals := by
  unfold SessionState.transition_stage; simp

@[simp] theorem transition_stage_turn (s : SessionState) (st : ScamStage) :
    (s.transition_stage st).turn_count = s.turn_count := by
  unfold SessionState.transition_stage; simp

@[simp] theorem check_thresholds_risk (s : SessionState) :
    s.check_risk_thresholds.risk_score = s.risk_score := by
  unfold SessionState.check_risk_thresholds
  repeat' split
  all_goals simp

@[simp] theorem check_thresholds_hard (s : SessionState) :
    s.check_risk_thresholds.hard_rule_triggered = s.hard_rule_triggered := by
  unfold SessionState.check_risk_thresholds
  repeat' split
  all_goals simp

@[simp] theorem check_thresholds_mission (s : SessionState) :
    s.check_risk_thresholds.mission_complete = s.mission_complete := by
  unfold SessionState.check_risk_thresholds
  repeat' split
  all_goals simp

@[simp] theorem check_thresholds_signals (s : SessionState) :
    s.check_risk_thresholds.triggered_signals = s.triggered_signals := by
  unfold SessionState.check_risk_thresholds
  repeat' split
  all_goals simp

@[simp] theorem check_thresholds_turn (s : SessionState) :
    s.check_risk_thresholds.turn_count = s.turn_count := by
  unfold SessionState.check_risk_thresholds
  repeat' split
  all_goals simp

theorem check_thresholds_detected_mono (s : SessionState)
    (h : s.scam_detected = true) :
    s.check_risk_thresholds.scam_detected = true := by
  unfold SessionState.check_risk_thresholds
  repeat' split
  all_goals simp [h]

theorem check_thresholds_detected_70 (s : SessionState)
    (h : s.risk_score ≥ 70) :
    s.check_risk_thresholds.scam_detected = true := by
  unfold SessionState.check_risk_thresholds
  repeat' split
  all_goals simp_all

theorem check_thresholds_stage_mono (s : SessionState) :
    s.scam_stage.idx ≤ s.check_risk_thresholds.scam_stage.idx := by
  unfold SessionState.check_risk_thresholds
  repeat' split
  all_goals simp_all [ScamStage.idx]
  all_goals (cases h : s.scam_stage <;> simp_all [ScamStage.idx])

theorem add_risk_risk (s : SessionState) (score : Int) :
    (s.add_risk score).risk_score = min (s.risk_score + score) 100 := by
  unfold SessionState.add_risk
  simp

@[simp] theorem add_risk_hard (s : SessionState) (score : Int) :
    (s.add_risk score).hard_rule_triggered = s.hard_rule_triggered := by
  unfold SessionState.add_risk
  simp

@[simp] theorem add_risk_mission (s : SessionState) (score : Int) :
    (s.add_risk score).mission_complete = s.mission_complete := by
  unfold SessionState.add_risk
  simp

@[simp] theorem add_risk_signals (s : SessionState) (score : Int) :
    (s.add_risk score).triggered_signals = s.triggered_signals := by
  unfold SessionState.add_risk
  simp

@[simp] theorem add_risk_turn (s : SessionState) (score : Int) :
    (s.add_risk score).turn_count = s.turn_count := by
  unfold SessionState.add_risk
  simp

theorem add_risk_detected_mono (s : SessionState) (score : Int)
    (h : s.scam_detected = true) :
    (s.add_risk score).scam_detected = true := by
  unfold SessionState.add_risk
  exact check_thresholds_detected_mono _ h

theorem add_risk_detectinv (s : SessionState) (score : Int)
    (h : (s.add_risk score).risk_score ≥ 70) :
    (s.add_risk score).scam_detected = true := by
  unfold SessionState.add_risk at *
  rw [check_thresholds_risk] at h
  exact check_thresholds_detected_70 _ h

theorem add_risk_stage_mono (s : SessionState) (score : Int) :
    s.scam_stage.idx ≤ (s.add_risk score).scam_stage.idx := by
  unfold SessionState.add_risk
  exact check_thresholds_stage_mono
    { s with risk_score := min (s.risk_score + score) 100 }

theorem add_risk_bounds (s : SessionState) (score : Int) (hs : 0 ≤ score)
    (h : RiskInv s) :
    RiskInv (s.add_risk score) ∧ s.risk_score ≤ (s.add_risk score).risk_score := by
  obtain ⟨h0, h100⟩ := h
  rw [RiskInv, add_risk_risk]
  refine ⟨⟨le_min (by omega) (by omega), min_le_right _ _⟩,
    le_min (by omega) h100⟩

theorem trigger_flags (s : SessionState) (score : Int) :
    (s.trigger_hard_rule score).scam_detected = true ∧
    (s.trigger_hard_rule score).hard_rule_triggered = true := by
  unfold SessionState.trigger_hard_rule
  dsimp only
  split
  · constructor
    · rw [transition_stage_detected]
      exact add_risk_detected_mono _ _ rfl
    · rw [transition_stage_hard, add_risk_hard]
  · exact ⟨add_risk_detected_mono _ _ rfl, by rw [add_risk_hard]⟩

theorem trigger_stage_action (s : SessionState) (score : Int) :
    ScamStage.ACTION.idx ≤ (s.trigger_hard_rule score).scam_stage.idx := by
  unfold SessionState.trigger_hard_rule
  dsimp only
  split
  · rw [transition_stage_stage]
  · next h =>
    simp only [not_not, List.mem_cons, List.not_mem_nil, or_false] at h
    rcases h with h | h <;> (rw [h]; try decide)

@[simp] theorem trigger_mission (s : SessionState) (score : Int) :
    (s.trigger_hard_rule score).mission_complete = s.mission_complete := by
  unfold SessionState.trigger_hard_rule
  dsimp only
  split <;> simp

@[simp] theorem trigger_turn (s : SessionState) (score : Int) :
    (s.trigger_hard_rule score).turn_count = s.turn_count := by
  unfold SessionState.trigger_hard_rule
  dsimp only
  split <;> simp

theorem idx_le_three_of_not_action_confirmed (st : ScamStage)
    (h1 : st ≠ .ACTION) (h2 : st ≠ .CONFIRMED) : st.idx ≤ 3 := by
  cases st <;> simp_all [ScamStage.idx]

theorem idx_le_five (st : ScamStage) : st.idx ≤ 5 := by
  cases st <;> simp [ScamStage.idx]

theorem trigger_stage_mono (s : SessionState) (score : Int) :
    s.scam_stage.idx ≤ (s.trigger_hard_rule score).scam_stage.idx := by
  unfold SessionState.trigger_hard_rule
  dsimp only
  set s1 : SessionState :=
    { s with hard_rule_triggered := true, scam_detected := true } with hs1
  have hmono : s.scam_stage.idx ≤ (s1.add_risk score).scam_stage.idx :=
    add_risk_stage_mono s1 score
  split
  · next h =>
    rw [transition_stage_stage]
    simp only [List.mem_cons, List.not_mem_nil, not_or, or_false] at h
    have h3 := idx_le_three_of_not_action_confirmed _ h.1 h.2
    have hA : ScamStage.ACTION.idx = 4 := rfl
    omega
  · exact hmono

theorem trigger_detectinv (s : SessionState) (score : Int) :
    DetectInv (s.trigger_hard_rule score) := by
  intro _
  exact (trigger_flags s score).1

theorem trigger_risk_bounds (s : SessionState) (score : Int) (hs : 0 ≤ score)
    (h : RiskInv s) :
    RiskInv (s.trigger_hard_rule score) ∧
      s.risk_score ≤ (s.trigger_hard_rule score).risk_score := by
  unfold SessionState.trigger_hard_rule
  dsimp only
  set s1 : SessionState :=
    { s with hard_rule_triggered := true, scam_detected := true } with hs1
  have hb : RiskInv (s1.add_risk score) ∧
      s1.risk_score ≤ (s1.add_risk score).risk_score :=
    add_risk_bounds s1 score hs h
  split
  · constructor
    · rw [RiskInv, transition_stage_risk]
      exact hb.1
    · rw [transition_stage_risk]
      exact hb.2
  · exact hb

theorem add_signal_detected_mono (s : SessionState) (sig : TriggeredSignal)
    (h : s.scam_detected = true) :
    (s.add_signal sig).scam_detected = true := by
  unfold SessionState.add_signal
  dsimp only
  split
  · exact (trigger_flags _ 0).1
  · exact add_risk_detected_mono _ _ h

theorem add_signal_hard_mono (s : SessionState) (sig : TriggeredSignal)
    (h : s.hard_rule_triggered = true) :
    (s.add_signal sig).hard_rule_triggered = true := by
  unfold SessionState.add_signal
  dsimp only
  split
  · exact (trigger_flags _ 0).2
  · rw [add_risk_hard]; exact h

@[simp] theorem add_signal_mission (s : SessionState) (sig : TriggeredSignal) :
    (s.add_signal sig).mission_complete = s.mission_complete := by
  unfold SessionState.add_signal
  dsimp only
  split <;> simp

@[simp] theorem add_signal_turn (s : SessionState) (sig : TriggeredSignal) :
    (s.add_signal sig).turn_count = s.turn_count := by
  unfold SessionState.add_signal
  dsimp only
  split <;> simp

theorem add_signal_stage_mono (s : SessionState) (sig : TriggeredSignal) :
    s.scam_stage.idx ≤ (s.add_signal sig).scam_stage.idx := by
  unfold SessionState.add_signal
  dsimp only
  set s1 : SessionState :=
    { s with triggered_signals := s.triggered_signals ++ [sig] } with hs1
  have h1 : s.scam_stage.idx ≤ (s1.add_risk sig.score).scam_stage.idx :=
    add_risk_stage_mono s1 sig.score
  split
  · exact le_trans h1 (trigger_stage_mono (s1.add_risk sig.score) 0)
  · exact h1

theorem add_signal_bounds (s : SessionState) (sig : TriggeredSignal)
    (hs : 0 ≤ sig.score) (h : RiskInv s) :
    RiskInv (s.add_signal sig) ∧
      s.risk_score ≤ (s.add_signal sig).risk_score := by
  unfold SessionState.add_signal
  dsimp only
  set s1 : SessionState :=
    { s with triggered_signals := s.triggered_signals ++ [sig] } with hs1
  have hb : RiskInv (s1.add_risk sig.score) ∧
      s1.risk_score ≤ (s1.add_risk sig.score).risk_score :=
    add_risk_bounds s1 sig.score hs h
  split
  · have hb2 := trigger_risk_bounds (s1.add_risk sig.score) 0 le_rfl hb.1
    exact ⟨hb2.1, le_trans hb.2 hb2.2⟩
  · exact hb

theorem add_signal_detectinv (s : SessionState) (sig : TriggeredSignal)
    (_h : DetectInv s) : DetectInv (s.add_signal sig) := by
  unfold SessionState.add_signal
  dsimp only
  split
  · exact trigger_detectinv _ 0
  · exact fun hr => add_risk_detectinv _ _ hr

theorem add_signal_latch (s : SessionState) (sig : TriggeredSignal)
    (h : sig.is_hard_rule = true) :
    (s.add_signal sig).scam_detected = true ∧
    (s.add_signal sig).hard_rule_triggered = true ∧
    ScamStage.ACTION.idx ≤ (s.add_signal sig).scam_stage.idx := by
  unfold SessionState.add_signal
  dsimp only
  rw [h]
  simp only [if_true]
  exact ⟨(trigger_flags _ 0).1, (trigger_flags _ 0).2, trigger_stage_action _ 0⟩

theorem pattern_step_risk (s : SessionState) (p : String) :
    (pattern_step s p).risk_score = s.risk_score := by
  unfold pattern_step
  repeat' split
  all_goals simp

theorem pattern_step_detected (s : SessionState) (p : String) :
    (pattern_step s p).scam_detected = s.scam_detected := by
  unfold pattern_step
  repeat' split
  all_goals simp

theorem pattern_step_hard (s : SessionState) (p : String) :
    (pattern_step s p).hard_rule_triggered = s.hard_rule_triggered := by
  unfold pattern_step
  repeat' split
  all_goals simp

theorem pattern_step_mission (s : SessionState) (p : String) :
    (pattern_step s p).mission_complete = s.mission_complete := by
  unfold pattern_step
  repeat' split
  all_goals simp

theorem pattern_step_signals (s : SessionState) (p : String) :
    (pattern_step s p).triggered_signals = s.triggered_signals := by
  unfold pattern_step
  repeat' split
  all_goals simp

theorem pattern_step_turn (s : SessionState) (p : String) :
    (pattern_step s p).turn_count = s.turn_count := by
  unfold pattern_step
  repeat' split
  all_goals simp

theorem pattern_step_stage_mono (s : SessionState) (p : String) :
    s.scam_stage.idx ≤ (pattern_step s p).scam_stage.idx := by
  unfold pattern_step
  repeat' split
  all_goals first
    | exact le_rfl
    | (rw [transition_stage_stage]; omega)

theorem usp_risk (s : SessionState) (ps : List String) :
    (s.update_stage_from_patterns ps).risk_score = s.risk_score := by
  unfold SessionState.update_stage_from_patterns
  induction ps generalizing s with
  | nil => rfl
  | cons p rest ih => rw [List.foldl_cons, ih, pattern_step_risk]

theorem usp_detected (s : SessionState) (ps : List String) :
    (s.update_stage_from_patterns ps).scam_detected = s.scam_detected := by
  unfold SessionState.update_stage_from_patterns
  induction ps generalizing s with
  | nil => rfl
  | cons p rest ih => rw [List.foldl_cons, ih, pattern_step_detected]

theorem usp_hard (s : SessionState) (ps : List String) :
    (s.update_stage_from_patterns ps).hard_rule_triggered =
      s.hard_rule_triggered := by
  unfold SessionState.update_stage_from_patterns
  induction ps generalizing s with
  | nil => rfl
  | cons p rest ih => rw [List.foldl_cons, ih, pattern_step_hard]

theorem usp_mission (s : SessionState) (ps : List String) :
    (s.update_stage_from_patterns ps).mission_complete = s.mission_complete := by
  unfold SessionState.update_stage_from_patterns
  induction ps generalizing s with
  | nil => rfl
  | cons p rest ih => rw [List.foldl_cons, ih, pattern_step_mission]

theorem usp_signals (s : SessionState) (ps : List String) :
    (s.update_stage_from_patterns ps).triggered_signals =
      s.triggered_signals := by
  unfold SessionState.update_stage_from_patterns
  induction ps generalizing s with
  | nil => rfl
  | cons p rest ih => rw [List.foldl_cons, ih, pattern_step_signals]

theorem usp_turn (s : SessionState) (ps : List String) :
    (s.update_stage_from_patterns ps).turn_count = s.turn_count := by
  unfold SessionState.update_stage_from_patterns
  induction ps generalizing s with
  | nil => rfl
  | cons p rest ih => rw [List.foldl_cons, ih, pattern_step_turn]

theorem usp_stage_mono (s : SessionState) (ps : List String) :
    s.scam_stage.idx ≤ (s.update_stage_from_patterns ps).scam_stage.idx := by
  unfold SessionState.update_stage_from_patterns
  induction ps generalizing s with
  | nil => exact le_rfl
  | cons p rest ih =>
    rw [List.foldl_cons]
    exact le_trans (pattern_step_stage_mono s p) (ih (pattern_step s p))

theorem usp_detectinv (s : SessionState) (ps : List String)
    (h : DetectInv s) : DetectInv (s.update_stage_from_patterns ps) := by
  intro hr
  rw [usp_risk] at hr
  rw [usp_detected]
  exact h hr

theorem llm_boost_mission (s : SessionState) (j : LLMJudgement) :
    (llm_boost_step s j).mission_complete = s.mission_complete := by
  unfold llm_boost_step; split <;> simp

theorem llm_boost_turn (s : SessionState) (j : LLMJudgement) :
    (llm_boost_step s j).turn_count = s.turn_count := by
  unfold llm_boost_step; split <;> simp

theorem llm_boost_hard (s : SessionState) (j : LLMJudgement) :
    (llm_boost_step s j).hard_rule_triggered = s.hard_rule_triggered := by
  unfold llm_boost_step; split <;> simp

theorem llm_boost_signals (s : SessionState) (j : LLMJudgement) :
    (llm_boost_step s j).triggered_signals = s.triggered_signals := by
  unfold llm_boost_step; split <;> simp

theorem llm_boost_detected_mono (s : SessionState) (j : LLMJudgement)
    (h : s.scam_detected = true) :
    (llm_boost_step s j).scam_detected = true := by
  unfold llm_boost_step
  split
  · exact add_risk_detected_mono _ _ h
  · exact h

theorem llm_boost_stage_mono (s : SessionState) (j : LLMJudgement) :
    s.scam_stage.idx ≤ (llm_boost_step s j).scam_stage.idx := by
  unfold llm_boost_step
  split
  · exact add_risk_stage_mono _ _
  · exact le_rfl

theorem llm_boost_bounds (s : SessionState) (j : LLMJudgement)
    (h : RiskInv s) :
    RiskInv (llm_boost_step s j) ∧
      s.risk_score ≤ (llm_boost_step s j).risk_score := by
  unfold llm_boost_step
  split
  · next hb => exact add_risk_bounds s j.risk_boost (le_of_lt hb) h
  · exact ⟨h, le_rfl⟩

theorem llm_boost_detectinv (s : SessionState) (j : LLMJudgement)
    (h : DetectInv s) : DetectInv (llm_boost_step s j) := by
  unfold llm_boost_step
  split
  · exact fun hr => add_risk_detectinv _ _ hr
  · exact h

theorem llm_stage_risk (s : SessionState) (j : LLMJudgement) :
    (llm_stage_step s j).risk_score = s.risk_score := by
  unfold llm_stage_step
  repeat' split
  all_goals simp

theorem llm_stage_detected (s : SessionState) (j : LLMJudgement) :
    (llm_stage_step s j).scam_detected = s.scam_detected := by
  unfold llm_stage_step
  repeat' split
  all_goals simp

theorem llm_stage_mission (s : SessionState) (j : LLMJudgement) :
    (llm_stage_step s j).mission_complete = s.mission_complete := by
  unfold llm_stage_step
  repeat' split
  all_goals simp

theorem llm_stage_turn (s : SessionState) (j : LLMJudgement) :
    (llm_stage_step s j).turn_count = s.turn_count := by
  unfold llm_stage_step
  repeat' split
  all_goals simp

theorem llm_stage_hard (s : SessionState) (j : LLMJudgement) :
    (llm_stage_step s j).hard_rule_triggered = s.hard_rule_triggered := by
  unfold llm_stage_step
  repeat' split
  all_goals simp

theorem llm_stage_signals (s : SessionState) (j : LLMJudgement) :
    (llm_stage_step s j).triggered_signals = s.triggered_signals := by
  unfold llm_stage_step
  repeat' split
  all_goals simp

theorem llm_stage_stage_mono (s : SessionState) (j : LLMJudgement) :
    s.scam_stage.idx ≤ (llm_stage_step s j).scam_stage.idx := by
  unfold llm_stage_step
  repeat' split
  all_goals first
    | exact le_rfl
    | (rw [transition_stage_stage]; omega)

theorem llm_latch_risk (s : SessionState) (j : LLMJudgement) :
    (llm_latch_step s j).risk_score = s.risk_score := by
  unfold llm_latch_step; split <;> simp

theorem llm_latch_stage (s : SessionState) (j : LLMJudgement) :
    (llm_latch_step s j).scam_stage = s.scam_stage := by
  unfold llm_latch_step; split <;> simp

theorem llm_latch_mission (s : SessionState) (j : LLMJudgement) :
    (llm_latch_step s j).mission_complete = s.mission_complete := by
  unfold llm_latch_step; split <;> simp

theorem llm_latch_turn (s : SessionState) (j : LLMJudgement) :
    (llm_latch_step s j).turn_count = s.turn_count := by
  unfold llm_latch_step; split <;> simp

theorem llm_latch_hard (s : SessionState) (j : LLMJudgement) :
    (llm_latch_step s j).hard_rule_triggered = s.hard_rule_triggered := by
  unfold llm_latch_step; split <;> simp

theorem llm_latch_signals (s : SessionState) (j : LLMJudgement) :
    (llm_latch_step s j).triggered_signals = s.triggered_signals := by
  unfold llm_latch_step; split <;> simp

theorem llm_latch_detected_mono (s : SessionState) (j : LLMJudgement)
    (h : s.scam_detected = true) :
    (llm_latch_step s j).scam_detected = true := by
  unfold llm_latch_step
  split
  · simp
  · exact h

theorem llm_latch_detectinv (s : SessionState) (j : LLMJudgement)
    (h : DetectInv s) : DetectInv (llm_latch_step s j) := by
  intro hr
  rw [llm_latch_risk] at hr
  unfold llm_latch_step
  split
  · simp
  · exact h hr

theorem add_llm_mission (s : SessionState) (j : LLMJudgement) :
    (s.add_llm_judgement j).mission_complete = s.mission_complete := by
  unfold SessionState.add_llm_judgement
  rw [llm_latch_mission, llm_stage_mission, llm_boost_mission]

theorem add_llm_turn (s : SessionState) (j : LLMJudgement) :
    (s.add_llm_judgement j).turn_count = s.turn_count := by
  unfold SessionState.add_llm_judgement
  rw [llm_latch_turn, llm_stage_turn, llm_boost_turn]

theorem add_llm_hard (s : SessionState) (j : LLMJudgement) :
    (s.add_llm_judgement j).hard_rule_triggered = s.hard_rule_triggered := by
  unfold SessionState.add_llm_judgement
  rw [llm_latch_hard, llm_stage_hard, llm_boost_hard]

theorem add_llm_detected_mono (s : SessionState) (j : LLMJudgement)
    (h : s.scam_detected = true) :
    (s.add_llm_judgement j).scam_detected = true := by
  unfold SessionState.add_llm_judgement
  apply llm_latch_detected_mono
  rw [llm_stage_detected]
  exact llm_boost_detected_mono _ _ h

theorem add_llm_stage_mono (s : SessionState) (j : LLMJudgement) :
    s.scam_stage.idx ≤ (s.add_llm_judgement j).scam_stage.idx := by
  unfold SessionState.add_llm_judgement
  set s1 : SessionState := { s with llm_judgements := s.llm_judgements ++ [j] }
  rw [llm_latch_stage]
  exact le_trans (llm_boost_stage_mono s1 j)
    (llm_stage_stage_mono (llm_boost_step s1 j) j)

theorem add_llm_bounds (s : SessionState) (j : LLMJudgement)
    (h : RiskInv s) :
    RiskInv (s.add_llm_judgement j) ∧
      s.risk_score ≤ (s.add_llm_judgement j).risk_score := by
  unfold SessionState.add_llm_judgement
  have hb := llm_boost_bounds
    { s with llm_judgements := s.llm_judgements ++ [j] } j h
  constructor
  · rw [RiskInv, llm_latch_risk, llm_stage_risk]
    exact hb.1
  · rw [llm_latch_risk, llm_stage_risk]
    exact hb.2

theorem add_llm_detectinv (s : SessionState) (j : LLMJudgement)
    (h : DetectInv s) : DetectInv (s.add_llm_judgement j) := by
  unfold SessionState.add_llm_judgement
  set s1 : SessionState := { s with llm_judgements := s.llm_judgements ++ [j] }
  apply llm_latch_detectinv
  intro hr
  rw [llm_stage_risk] at hr
  rw [llm_stage_detected]
  exact llm_boost_detectinv s1 j h hr

theorem signals_fold_mission (s : SessionState) (sigs : List TriggeredSignal) :
    (sigs.foldl SessionState.add_signal s).mission_complete =
      s.mission_complete := by
  induction sigs generalizing s with
  | nil => rfl
  | cons a rest ih => rw [List.foldl_cons, ih, add_signal_mission]

theorem signals_fold_turn (s : SessionState) (sigs : List TriggeredSignal) :
    (sigs.foldl SessionState.add_signal s).turn_count = s.turn_count := by
  induction sigs generalizing s with
  | nil => rfl
  | cons a rest ih => rw [List.foldl_cons, ih, add_signal_turn]

theorem signals_fold_detected_mono (s : SessionState)
    (sigs : List TriggeredSignal) (h : s.scam_detected = true) :
    (sigs.foldl SessionState.add_signal s).scam_detected = true := by
  induction sigs generalizing s with
  | nil => exact h
  | cons a rest ih =>
    rw [List.foldl_cons]
    exact ih _ (add_signal_detected_mono s a h)

theorem signals_fold_stage_mono (s : SessionState)
    (sigs : List TriggeredSignal) :
    s.scam_stage.idx ≤ (sigs.foldl SessionState.add_signal s).scam_stage.idx := by
  induction sigs generalizing s with
  | nil => exact le_rfl
  | cons a rest ih =>
    rw [List.foldl_cons]
    exact le_trans (add_signal_stage_mono s a) (ih _)

theorem signals_fold_detectinv (s : SessionState)
    (sigs : List TriggeredSignal) (h : DetectInv s) :
    DetectInv (sigs.foldl SessionState.add_signal s) := by
  induction sigs generalizing s with
  | nil => exact h
  | cons a rest ih =>
    rw [List.foldl_cons]
    exact ih _ (add_signal_detectinv s a h)

theorem signals_fold_bounds (s : SessionState) (sigs : List TriggeredSignal)
    (hs : ∀ sig ∈ sigs, 0 ≤ sig.score) (h : RiskInv s) :
    RiskInv (sigs.foldl SessionState.add_signal s) ∧
      s.risk_score ≤ (sigs.foldl SessionState.add_signal s).risk_score := by
  induction sigs generalizing s with
  | nil => exact ⟨h, le_rfl⟩
  | cons a rest ih =>
    rw [List.foldl_cons]
    have h1 := add_signal_bounds s a (hs a (List.mem_cons_self a rest)) h
    have h2 := ih (s.add_signal a)
      (fun sig hm => hs sig (List.mem_cons_of_mem a hm)) h1.1
    exact ⟨h2.1, le_trans h1.2 h2.2⟩

theorem apply_signals_mission (s : SessionState) (sigs : List TriggeredSignal)
    (hard : Bool) :
    (apply_signals_to_session s sigs hard).mission_complete =
      s.mission_complete := by
  unfold apply_signals_to_session
  dsimp only
  split <;> simp [signals_fold_mission]

theorem apply_signals_turn (s : SessionState) (sigs : List TriggeredSignal)
    (hard : Bool) :
    (apply_signals_to_session s sigs hard).turn_count = s.turn_count := by
  unfold apply_signals_to_session
  dsimp only
  split <;> simp [signals_fold_turn]

theorem apply_signals_detected_mono (s : SessionState)
    (sigs : List TriggeredSignal) (hard : Bool) (h : s.scam_detected = true) :
    (apply_signals_to_session s sigs hard).scam_detected = true := by
  unfold apply_signals_to_session
  dsimp only
  split
  · simp
  · exact signals_fold_detected_mono s sigs h

theorem apply_signals_hard_latch (s : SessionState)
    (sigs : List TriggeredSignal) :
    (apply_signals_to_session s sigs true).scam_detected = true ∧
    (apply_signals_to_session s sigs true).hard_rule_triggered = true := by
  unfold apply_signals_to_session
  simp

theorem apply_signals_stage_mono (s : SessionState)
    (sigs : List TriggeredSignal) (hard : Bool) :
    s.scam_stage.idx ≤
      (apply_signals_to_session s sigs hard).scam_stage.idx := by
  unfold apply_signals_to_session
  dsimp only
  split
  · simp only
    exact signals_fold_stage_mono s sigs
  · exact signals_fold_stage_mono s sigs

theorem apply_signals_detectinv (s : SessionState)
    (sigs : List TriggeredSignal) (hard : Bool) (h : DetectInv s) :
    DetectInv (apply_signals_to_session s sigs hard) := by
  unfold apply_signals_to_session
  dsimp only
  have h1 := signals_fold_detectinv s sigs h
  split
  · intro _; simp
  · exact h1

theorem apply_ml_mission (s : SessionState) (c : Rat) (b : Bool) (t : Nat) :
    (apply_ml_score s c b t).mission_complete = s.mission_complete := by
  unfold apply_ml_score
  split
  · rfl
  · rw [add_signal_mission]

theorem apply_ml_turn (s : SessionState) (c : Rat) (b : Bool) (t : Nat) :
    (apply_ml_score s c b t).turn_count = s.turn_count := by
  unfold apply_ml_score
  split
  · rfl
  · rw [add_signal_turn]

theorem apply_ml_detected_mono (s : SessionState) (c : Rat) (b : Bool)
    (t : Nat) (h : s.scam_detected = true) :
    (apply_ml_score s c b t).scam_detected = true := by
  unfold apply_ml_score
  split
  · exact h
  · exact add_signal_detected_mono _ _ h

theorem apply_ml_stage_mono (s : SessionState) (c : Rat) (b : Bool) (t : Nat) :
    s.scam_stage.idx ≤ (apply_ml_score s c b t).scam_stage.idx := by
  unfold apply_ml_score
  split
  · exact le_rfl
  · exact add_signal_stage_mono _ _

theorem apply_ml_detectinv (s : SessionState) (c : Rat) (b : Bool) (t : Nat)
    (h : DetectInv s) : DetectInv (apply_ml_score s c b t) := by
  unfold apply_ml_score
  split
  · exact h
  · exact add_signal_detectinv _ _ h

theorem mlLadderScore_nonneg (c : Rat) : 0 ≤ mlLadderScore c := by
  unfold mlLadderScore
  repeat' split
  all_goals norm_num

theorem apply_ml_bounds (s : SessionState) (c : Rat) (b : Bool) (t : Nat)
    (h : RiskInv s) :
    RiskInv (apply_ml_score s c b t) ∧
      s.risk_score ≤ (apply_ml_score s c b t).risk_score := by
  unfold apply_ml_score
  split
  · exact ⟨h, le_rfl⟩
  · exact add_signal_bounds _ _ (mlLadderScore_nonneg c) h

/-- Boolean characterization of the `scamDetected` decision of
`_make_decision`. -/
theorem make_decision_spec (session : SessionState) (hard ml : Bool)
    (llm : Option LLMJudgement) :
    make_decision_scamDetected session hard ml llm =
      (hard || decide (session.risk_score ≥ 70) ||
       (decide (session.risk_score ≥ 50) && ml &&
         (match llm with | some j => j.is_scam_likely | none => false)) ||
       session.scam_detected) := by
  unfold make_decision_scamDetected
  dsimp only
  repeat' split
  all_goals simp_all

theorem make_decision_detected_true (session : SessionState) (hard ml : Bool)
    (llm : Option LLMJudgement) (h : session.scam_detected = true) :
    make_decision_scamDetected session hard ml llm = true := by
  rw [make_decision_spec, h]
  simp

/-- Source: `check_mission_complete` as a boolean formula over the session
fields. -/
theorem check_mission_formula (s : SessionState) :
    s.check_mission_complete.1 =
      (s.mission_complete ||
        (s.scam_detected &&
          ((s.has_high_value_intel &&
             (decide (s.turn_count ≥ 5) ||
              decide (action_signal_count s ≥ 3))) ||
           decide (s.turn_count ≥ 25)))) := by
  unfold SessionState.check_mission_complete action_signal_count
  dsimp only
  repeat' split
  all_goals simp_all

theorem check_mission_sets_flag (s : SessionState)
    (h : s.check_mission_complete.1 = true) :
    s.check_mission_complete.2.mission_complete = true := by
  unfold SessionState.check_mission_complete at *
  dsimp only at *
  repeat' split at h
  all_goals simp_all

theorem check_mission_flag_true (s : SessionState)
    (h : s.mission_complete = true) : s.check_mission_complete.1 = true := by
  unfold SessionState.check_mission_complete
  rw [h]
  rfl

/-! ### Composition lemmas for one detector turn -/

theorem detect_ml_mission (s : SessionState) (ml : MlResult) (t : Nat) :
    (detect_ml_step s ml t).mission_complete = s.mission_complete := by
  unfold detect_ml_step
  split
  · exact apply_ml_mission s ml.confidence ml.is_scam t
  · rfl

theorem detect_ml_detected_mono (s : SessionState) (ml : MlResult) (t : Nat)
    (h : s.scam_detected = true) :
    (detect_ml_step s ml t).scam_detected = true := by
  unfold detect_ml_step
  split
  · exact apply_ml_detected_mono _ _ _ _ h
  · exact h

theorem detect_ml_detectinv (s : SessionState) (ml : MlResult) (t : Nat)
    (h : DetectInv s) : DetectInv (detect_ml_step s ml t) := by
  unfold detect_ml_step
  split
  · exact apply_ml_detectinv _ _ _ _ h
  · exact h

theorem preLlm_mission (s : SessionState) (msg : String) (pats : List String)
    (ml : MlResult) :
    (preLlmState s msg pats ml).mission_complete = s.mission_complete := by
  unfold preLlmState
  dsimp only
  rw [detect_ml_mission, usp_mission, apply_signals_mission]

theorem preLlm_detected_mono (s : SessionState) (msg : String)
    (pats : List String) (ml : MlResult) (h : s.scam_detected = true) :
    (preLlmState s msg pats ml).scam_detected = true := by
  unfold preLlmState
  dsimp only
  apply detect_ml_detected_mono
  rw [usp_detected]
  exact apply_signals_detected_mono _ _ _ h

theorem preLlm_detectinv (s : SessionState) (msg : String)
    (pats : List String) (ml : MlResult) (h : DetectInv s) :
    DetectInv (preLlmState s msg pats ml) := by
  unfold preLlmState
  dsimp only
  apply detect_ml_detectinv
  apply usp_detectinv
  exact apply_signals_detectinv _ _ _ h

theorem detectTurn_mission (s : SessionState) (msg : String)
    (pats : List String) (ml : MlResult) (llm : LLMJudgement) :
    (detectTurn s msg pats ml llm).1.mission_complete = s.mission_complete := by
  unfold detectTurn
  dsimp only
  split
  · rw [add_llm_mission, preLlm_mission]
  · rw [preLlm_mission]

theorem detectTurn_detected_latch (s : SessionState) (msg : String)
    (pats : List String) (ml : MlResult) (llm : LLMJudgement)
    (h : s.scam_detected = true) :
    (detectTurn s msg pats ml llm).1.scam_detected = true ∧
    (detectTurn s msg pats ml llm).2 = true := by
  unfold detectTurn
  dsimp only
  have hpre := preLlm_detected_mono s msg pats ml h
  split
  · have hd := add_llm_detected_mono _ llm hpre
    exact ⟨hd, make_decision_detected_true _ _ _ _ hd⟩
  · exact ⟨hpre, make_decision_detected_true _ _ _ _ hpre⟩

theorem detectTurn_detectinv (s : SessionState) (msg : String)
    (pats : List String) (ml : MlResult) (llm : LLMJudgement)
    (h : DetectInv s) :
    DetectInv (detectTurn s msg pats ml llm).1 := by
  unfold detectTurn
  dsimp only
  have hpre := preLlm_detectinv s msg pats ml h
  split
  · exact add_llm_detectinv _ llm hpre
  · exact hpre

theorem detectTurn_hard_latched (s : SessionState) (msg : String)
    (pats : List String) (ml : MlResult) (llm : LLMJudgement)
    (hhard : (analyze_message msg (s.turn_count + 1)).2.2 = true) :
    (detectTurn s msg pats ml llm).1.scam_detected = true := by
  unfold detectTurn
  dsimp only
  have hpre : (preLlmState s msg pats ml).scam_detected = true := by
    unfold preLlmState
    dsimp only
    apply detect_ml_detected_mono
    rw [usp_detected, hhard]
    exact (apply_signals_hard_latch _ _).1
  split
  · exact add_llm_detected_mono _ llm hpre
  · exact hpre

/-- If a turn's verdict is `true` while the session's latched
`scam_detected` flag stays `false`, the verdict came from the ML+LLM
consensus branch: no hard rule fired, the final risk is in `[50, 70)`, the
ML classifier flagged the message, the judge was invoked and deemed the
conversation scam-likely (necessarily below the 0.85 latch threshold). -/
theorem detectTurn_consensus_only (s : SessionState) (msg : String)
    (pats : List String) (ml : MlResult) (llm : LLMJudgement)
    (hinv : DetectInv s)
    (hv : (detectTurn s msg pats ml llm).2 = true)
    (hf : (detectTurn s msg pats ml llm).1.scam_detected = false) :
    (analyze_message msg (s.turn_count + 1)).2.2 = false ∧
      ml.is_scam = true ∧ llm.is_scam_likely = true ∧
      shouldInvokeLlm s msg pats ml = true ∧
      ¬(llm.is_scam_likely = true ∧ llm.confidence ≥ 0.85) ∧
      50 ≤ (detectTurn s msg pats ml llm).1.risk_score ∧
      (detectTurn s msg pats ml llm).1.risk_score < 70 := by
  have hinv' := detectTurn_detectinv s msg pats ml llm hinv
  have hlt : (detectTurn s msg pats ml llm).1.risk_score < 70 := by
    by_contra hge
    push_neg at hge
    rw [hinv' (by omega)] at hf
    exact absurd hf (by simp)
  have hhard : (analyze_message msg (s.turn_count + 1)).2.2 = false := by
    by_contra hh
    rw [Bool.not_eq_false] at hh
    rw [detectTurn_hard_latched s msg pats ml llm hh] at hf
    exact absurd hf (by simp)
  have hveq : (detectTurn s msg pats ml llm).2 =
      make_decision_scamDetected (detectTurn s msg pats ml llm).1
        (analyze_message msg (s.turn_count + 1)).2.2 ml.is_scam
        (if shouldInvokeLlm s msg pats ml then some llm else none) := rfl
  rw [hveq, make_decision_spec, hhard, hf] at hv
  have h70 : decide ((detectTurn s msg pats ml llm).1.risk_score ≥ 70) = false := by
    simp only [decide_eq_false_iff_not]
    omega
  rw [h70] at hv
  simp only [Bool.false_or, Bool.or_false] at hv
  rw [Bool.and_eq_true, Bool.and_eq_true] at hv
  obtain ⟨⟨h50, hml⟩, hA⟩ := hv
  by_cases hI : shouldInvokeLlm s msg pats ml = true
  · rw [if_pos hI] at hA
    dsimp only at hA
    have hs4 : (detectTurn s msg pats ml llm).1 =
        (preLlmState s msg pats ml).add_llm_judgement llm := by
      unfold detectTurn
      dsimp only
      rw [if_pos hI]
    have hlatch : ¬(llm.is_scam_likely = true ∧ llm.confidence ≥ 0.85) := by
      rintro ⟨ha, hb⟩
      have hd : (detectTurn s msg pats ml llm).1.scam_detected = true := by
        rw [hs4]
        unfold SessionState.add_llm_judgement llm_latch_step
        rw [if_pos ⟨ha, hb⟩]
      rw [hd] at hf
      exact absurd hf (by simp)
    exact ⟨hhard, hml, hA, hI, hlatch, by simpa using h50, hlt⟩
  · rw [if_neg hI] at hA
    dsimp only at hA
    exact absurd hA (by simp)

/-! ### Extractor lemmas -/

theorem merge_keywords_heavy_fields (intel : ExtractedIntelligence)
    (kws : List String) :
    (merge_keywords intel kws).upiIds = intel.upiIds ∧
    (merge_keywords intel kws).bankAccounts = intel.bankAccounts ∧
    (merge_keywords intel kws).phoneNumbers = intel.phoneNumbers ∧
    (merge_keywords intel kws).phishingLinks = intel.phishingLinks := by
  unfold merge_keywords
  induction kws generalizing intel with
  | nil => exact ⟨rfl, rfl, rfl, rfl⟩
  | cons k rest ih =>
    rw [List.foldl_cons]
    refine (ih _).imp (fun h => h.trans ?_) (fun h => h.imp (fun h => h.trans ?_)
      (fun h => h.imp (fun h => h.trans ?_) (fun h => h.trans ?_))) <;>
      (split <;> rfl)

/-- The gating of `extract` as an equation: heavy extraction runs exactly at
stages TRUST and above. -/
theorem extract_gating (text : String) (intel : ExtractedIntelligence)
    (stage : ScamStage) :
    extract text intel stage =
      (if stage ∈ [ScamStage.TRUST, .THREAT, .ACTION, .CONFIRMED] then
        extract_heavy text (merge_keywords intel (extract_light text))
      else merge_keywords intel (extract_light text)) := rfl

/-- Every phone number added by `_extract_phone_numbers` passed the
`len(phone) == 10` guard after normalization. -/
theorem extract_phone_new (text : String) (intel : ExtractedIntelligence) :
    ∀ p ∈ (extract_phone_numbers text intel).phoneNumbers,
      p ∈ intel.phoneNumbers ∨ p.length = 10 := by
  unfold extract_phone_numbers
  generalize reFindall phoneIndianPattern text = ms
  induction ms generalizing intel with
  | nil => exact fun p hp => Or.inl hp
  | cons m rest ih =>
    intro p hp
    rw [List.foldl_cons] at hp
    rcases ih _ p hp with h | h
    · revert h
      dsimp only
      split
      · next hguard =>
        intro h
        rcases List.mem_append.mp h with h | h
        · exact Or.inl h
        · rw [List.mem_singleton] at h
          subst h
          rw [Bool.and_eq_true] at hguard
          exact Or.inr (by simpa using hguard.1)
      · exact fun h => Or.inl h
    · exact Or.inr h

/-- A fold whose step never touches `phoneNumbers` preserves it. -/
theorem foldl_phones_preserved {β : Type}
    (f : ExtractedIntelligence → β → ExtractedIntelligence)
    (hf : ∀ i b, (f i b).phoneNumbers = i.phoneNumbers) (l : List β)
    (intel : ExtractedIntelligence) :
    (l.foldl f intel).phoneNumbers = intel.phoneNumbers := by
  induction l generalizing intel with
  | nil => rfl
  | cons b rest ih => rw [List.foldl_cons, ih, hf]

/-- A fold whose step either leaves `phoneNumbers` alone or appends the
current element only adds members of the folded list. -/
theorem foldl_phones_from {β : Type}
    (f : ExtractedIntelligence → β → ExtractedIntelligence) (g : β → String)
    (hf : ∀ i b, (f i b).phoneNumbers = i.phoneNumbers ∨
      (f i b).phoneNumbers = i.phoneNumbers ++ [g b]) (l : List β)
    (intel : ExtractedIntelligence) :
    ∀ p ∈ (l.foldl f intel).phoneNumbers,
      p ∈ intel.phoneNumbers ∨ ∃ b ∈ l, p = g b := by
  induction l generalizing intel with
  | nil => exact fun p hp => Or.inl hp
  | cons b rest ih =>
    intro p hp
    rw [List.foldl_cons] at hp
    rcases ih (f intel b) p hp with h | ⟨b', hb', he⟩
    · rcases hf intel b with he | he
      · rw [he] at h
        exact Or.inl h
      · rw [he] at h
        rcases List.mem_append.mp h with h | h
        · exact Or.inl h
        · exact Or.inr ⟨b, List.mem_cons_self b rest, List.mem_singleton.mp h⟩
    · exact Or.inr ⟨b', List.mem_cons_of_mem b hb', he⟩

theorem extract_upi_phones (text : String) (intel : ExtractedIntelligence) :
    (extract_upi_ids text intel).phoneNumbers = intel.phoneNumbers := by
  unfold extract_upi_ids
  exact foldl_phones_preserved _
    (fun i b => by
      try dsimp only
      repeat' split
      all_goals rfl) _ _

theorem extract_bank_phones (text : String) (intel : ExtractedIntelligence) :
    (extract_bank_accounts text intel).phoneNumbers = intel.phoneNumbers := by
  unfold extract_bank_accounts
  dsimp only
  exact (foldl_phones_preserved _
      (fun i b => by
      try dsimp only
      repeat' split
      all_goals rfl) _ _).trans
    (foldl_phones_preserved _
      (fun i b => by
      try dsimp only
      repeat' split
      all_goals rfl) _ _)

theorem extract_urls_phones (text : String) (intel : ExtractedIntelligence) :
    (extract_urls text intel).phoneNumbers = intel.phoneNumbers := by
  unfold extract_urls
  dsimp only
  exact (foldl_phones_preserved _
      (fun i b => by
      try dsimp only
      repeat' split
      all_goals rfl) _ _).trans
    (foldl_phones_preserved _
      (fun i b => by
      try dsimp only
      repeat' split
      all_goals rfl) _ _)

theorem telegram_fold_phones (text : String) (intel : ExtractedIntelligence) :
    (telegram_fold text intel).phoneNumbers = intel.phoneNumbers := by
  unfold telegram_fold
  exact foldl_phones_preserved _
    (fun i b => by
      try dsimp only
      repeat' split
      all_goals rfl) _ _

theorem remote_fold_phones (text : String) (intel : ExtractedIntelligence) :
    (remote_fold text intel).phoneNumbers = intel.phoneNumbers := by
  unfold remote_fold
  exact foldl_phones_preserved _
    (fun i b => by
      try dsimp only
      repeat' split
      all_goals rfl) _ _

theorem qr_update_phones (text : String) (intel : ExtractedIntelligence) :
    (qr_update text intel).phoneNumbers = intel.phoneNumbers := by
  unfold qr_update
  repeat' split
  all_goals rfl

theorem whatsapp_fold_phones (text : String) (intel : ExtractedIntelligence) :
    ∀ p ∈ (whatsapp_fold text intel).phoneNumbers,
      p ∈ intel.phoneNumbers ∨
        p ∈ reFindall2 whatsappPre whatsappGrp text := by
  unfold whatsapp_fold
  intro p hp
  rcases foldl_phones_from _ (fun b => b)
      (fun i b => by
        dsimp only
        split
        · exact Or.inr rfl
        · exact Or.inl rfl) _ _ p hp with h | ⟨b, hb, he⟩
  · exact Or.inl h
  · subst he
    exact Or.inr hb

theorem extract_additional_phones (text : String)
    (intel : ExtractedIntelligence) :
    ∀ p ∈ (extract_additional_intel text intel).phoneNumbers,
      p ∈ intel.phoneNumbers ∨
        p ∈ reFindall2 whatsappPre whatsappGrp text := by
  unfold extract_additional_intel
  intro p hp
  rw [qr_update_phones, remote_fold_phones] at hp
  rcases whatsapp_fold_phones text _ p hp with h | h
  · rw [telegram_fold_phones] at h
    exact Or.inl h
  · exact Or.inr h

/-- All phone numbers added by one heavy extraction pass are either
10-character normalized Indian phone numbers (phone path) or verbatim
captured WhatsApp-link numbers. -/
theorem extract_heavy_phones (text : String) (intel : ExtractedIntelligence) :
    ∀ p ∈ (extract_heavy text intel).phoneNumbers,
      p ∈ intel.phoneNumbers ∨ p.length = 10 ∨
        p ∈ reFindall2 whatsappPre whatsappGrp text := by
  unfold extract_heavy
  intro p hp
  rcases extract_additional_phones _ _ p hp with h | h
  · rw [extract_urls_phones] at h
    rcases extract_phone_new _ _ p h with h' | h'
    · rw [extract_bank_phones, extract_upi_phones] at h'
      exact Or.inl h'
    · exact Or.inr (Or.inl h')
  · exact Or.inr (Or.inr h)

/-! ### Rule-score nonnegativity -/

theorem scaledSoftScore_nonneg (score : Int) (m : Nat) (h : 0 ≤ score) :
    0 ≤ scaledSoftScore score m := by
  unfold scaledSoftScore
  have hs : (0:Rat) ≤ (score:Rat) := by exact_mod_cast h
  have h1 : (0:Rat) ≤ (score:Rat) * (1 + (m:Rat) * 0.2) := by
    apply mul_nonneg hs
    positivity
  have h2 : (0:Rat) ≤ (score:Rat) * 2 := by
    apply mul_nonneg hs
    norm_num
  exact Rat.le_floor.mpr (by exact_mod_cast le_min h1 h2)

theorem hard_rules_scores_nonneg : ∀ r ∈ hard_rules, 0 ≤ r.score := by
  intro r hr
  fin_cases hr <;> norm_num

theorem soft_rules_scores_nonneg : ∀ r ∈ soft_rules, 0 ≤ r.score := by
  intro r hr
  fin_cases hr <;> norm_num

theorem foldl_acc_sig_nonneg {β : Type}
    (f : (List TriggeredSignal × Int × Bool) → β →
      (List TriggeredSignal × Int × Bool)) (l : List β)
    (hf : ∀ acc, ∀ b ∈ l, (∀ sig ∈ acc.1, 0 ≤ sig.score) →
      ∀ sig ∈ (f acc b).1, 0 ≤ sig.score)
    (acc : List TriggeredSignal × Int × Bool)
    (hacc : ∀ sig ∈ acc.1, 0 ≤ sig.score) :
    ∀ sig ∈ (l.foldl f acc).1, 0 ≤ sig.score := by
  induction l generalizing acc with
  | nil => exact hacc
  | cons b rest ih =>
    rw [List.foldl_cons]
    exact ih (fun acc b' hb' h => hf acc b' (List.mem_cons_of_mem _ hb') h)
      (f acc b) (hf acc b (List.mem_cons_self _ _) hacc)

/-- Every signal emitted by the rule scan carries a nonnegative score. -/
theorem analyze_message_scores_nonneg (msg : String) (turn : Nat) :
    ∀ sig ∈ (analyze_message msg turn).1, 0 ≤ sig.score := by
  unfold analyze_message
  dsimp only
  apply foldl_acc_sig_nonneg
  · intro acc rule hrule hacc sig hsig
    revert hsig
    try dsimp only
    split
    · intro hsig
      rcases List.mem_append.mp hsig with h | h
      · exact hacc sig h
      · rw [List.mem_singleton] at h
        subst h
        exact scaledSoftScore_nonneg _ _ (soft_rules_scores_nonneg rule hrule)
    · exact fun hsig => hacc sig hsig
  · apply foldl_acc_sig_nonneg
    · intro acc rule hrule hacc sig hsig
      revert hsig
      try dsimp only
      split
      · intro hsig
        rcases List.mem_append.mp hsig with h | h
        · exact hacc sig h
        · rw [List.mem_singleton] at h
          subst h
          exact hard_rules_scores_nonneg rule hrule
      · exact fun hsig => hacc sig hsig
    · intro sig hsig
      exact absurd hsig (List.not_mem_nil sig)

/-! ## Claim theorems -/

/-- C1. For every session, `riskScore` is an integer satisfying
`0 ≤ riskScore ≤ 100` at all times and is monotonically non-decreasing
across every operation that touches it (soft-rule signal via `add_signal`,
hard-rule trigger, ML signal, LLM risk boost): each addition sets
`riskScore := min(100, riskScore + score)`.  The final conjunct shows that
every rule-scan signal indeed carries a nonnegative score, so the
nonnegativity hypotheses hold on all signals the engine generates
(`apply_ml_score` scores and LLM boosts are nonnegative by construction). -/
theorem C1_risk_score_bounded_monotone :
    (∀ (s : SessionState) (score : Int),
      (s.add_risk score).risk_score = min (s.risk_score + score) 100) ∧
    RiskInv SessionState.init ∧
    (∀ (s : SessionState) (sig : TriggeredSignal), 0 ≤ sig.score → RiskInv s →
      RiskInv (s.add_signal sig) ∧
        s.risk_score ≤ (s.add_signal sig).risk_score) ∧
    (∀ (s : SessionState) (score : Int), 0 ≤ score → RiskInv s →
      RiskInv (s.trigger_hard_rule score) ∧
        s.risk_score ≤ (s.trigger_hard_rule score).risk_score) ∧
    (∀ (s : SessionState) (c : Rat) (b : Bool) (t : Nat), RiskInv s →
      RiskInv (apply_ml_score s c b t) ∧
        s.risk_score ≤ (apply_ml_score s c b t).risk_score) ∧
    (∀ (s : SessionState) (j : LLMJudgement), RiskInv s →
      RiskInv (s.add_llm_judgement j) ∧
        s.risk_score ≤ (s.add_llm_judgement j).risk_score) ∧
    (∀ (msg : String) (turn : Nat),
      ∀ sig ∈ (analyze_message msg turn).1, 0 ≤ sig.score) :=
  ⟨add_risk_risk, ⟨by decide, by decide⟩, add_signal_bounds, trigger_risk_bounds,
    apply_ml_bounds, add_llm_bounds, analyze_message_scores_nonneg⟩

/-- Witness for C1 at a concrete input: the turn-1 `legal_threat` soft
signal (score 26) applied to a fresh session. -/
theorem C1_witness :
    (0 : Int) ≤ 26 ∧
    (RiskInv (SessionState.init.add_signal
        ⟨"threat", "legal_threat", 26, false, "rule", 1, ""⟩) ∧
      SessionState.init.risk_score ≤
        (SessionState.init.add_signal
          ⟨"threat", "legal_threat", 26, false, "rule", 1, ""⟩).risk_score) :=
  ⟨by decide,
    C1_risk_score_bounded_monotone.2.2.1 SessionState.init
      ⟨"threat", "legal_threat", 26, false, "rule", 1, ""⟩
      (by decide) ⟨by decide, by decide⟩⟩

/-- C2. For every session, the stage is one of
`NORMAL < HOOK < TRUST < THREAT < ACTION < CONFIRMED` (the `ScamStage` type
with priority index `idx`) and never moves backward in this order under any
stage-changing operation: threshold re-evaluation after a score addition
(`add_risk`), pattern-driven stage advance, LLM-suggested stage advance,
hard-rule trigger — and their composition in `add_signal`. -/
theorem C2_stage_never_moves_backward :
    (∀ (s : SessionState) (score : Int),
      s.scam_stage.idx ≤ (s.add_risk score).scam_stage.idx) ∧
    (∀ (s : SessionState) (pats : List String),
      s.scam_stage.idx ≤ (s.update_stage_from_patterns pats).scam_stage.idx) ∧
    (∀ (s : SessionState) (j : LLMJudgement),
      s.scam_stage.idx ≤ (s.add_llm_judgement j).scam_stage.idx) ∧
    (∀ (s : SessionState) (score : Int),
      s.scam_stage.idx ≤ (s.trigger_hard_rule score).scam_stage.idx) ∧
    (∀ (s : SessionState) (sig : TriggeredSignal),
      s.scam_stage.idx ≤ (s.add_signal sig).scam_stage.idx) :=
  ⟨add_risk_stage_mono, usp_stage_mono, add_llm_stage_mono,
    trigger_stage_mono, add_signal_stage_mono⟩

/-- C3. Whenever a hard-rule signal is applied to a session (on any
turn, including turn 1 — the state is universally quantified, so this
covers a fresh session), `scamDetected` and `hardRuleTriggered` are
immediately latched to `true`, and the stage immediately afterwards is at
least ACTION; the same holds for the direct `trigger_hard_rule` call and
for `apply_signals_to_session` invoked with the hard-rule flag. -/
theorem C3_hard_rule_latches_immediately :
    (∀ (s : SessionState) (score : Int),
      (s.trigger_hard_rule score).scam_detected = true ∧
      (s.trigger_hard_rule score).hard_rule_triggered = true ∧
      ScamStage.ACTION.idx ≤ (s.trigger_hard_rule score).scam_stage.idx) ∧
    (∀ (s : SessionState) (sig : TriggeredSignal), sig.is_hard_rule = true →
      (s.add_signal sig).scam_detected = true ∧
      (s.add_signal sig).hard_rule_triggered = true ∧
      ScamStage.ACTION.idx ≤ (s.add_signal sig).scam_stage.idx) ∧
    (∀ (s : SessionState) (sigs : List TriggeredSignal),
      (apply_signals_to_session s sigs true).scam_detected = true ∧
      (apply_signals_to_session s sigs true).hard_rule_triggered = true) :=
  ⟨fun s score =>
      ⟨(trigger_flags s score).1, (trigger_flags s score).2,
        trigger_stage_action s score⟩,
    add_signal_latch, apply_signals_hard_latch⟩

/-- Witness for C3: the `otp_share_request` hard-rule signal (score 35)
applied on turn 1 to a fresh session. -/
theorem C3_witness :
    ((⟨"otp_request", "otp_share_request", 35, true, "rule", 1,
        ""⟩ : TriggeredSignal).is_hard_rule = true) ∧
    ((SessionState.init.add_signal
        ⟨"otp_request", "otp_share_request", 35, true, "rule", 1,
          ""⟩).scam_detected = true ∧
      (SessionState.init.add_signal
        ⟨"otp_request", "otp_share_request", 35, true, "rule", 1,
          ""⟩).hard_rule_triggered = true ∧
      ScamStage.ACTION.idx ≤
        (SessionState.init.add_signal
          ⟨"otp_request", "otp_share_request", 35, true, "rule", 1,
            ""⟩).scam_stage.idx) :=
  ⟨by decide,
    C3_hard_rule_latches_immediately.2.1 SessionState.init
      ⟨"otp_request", "otp_share_request", 35, true, "rule", 1, ""⟩
      (by decide)⟩

/-- C4. The mission-completion check returns true iff
`scamDetected ∧ high-value-artifact ∧ (turnCount ≥ 5 ∨ ≥3 action signals)`,
or unconditionally once `turnCount ≥ 25` with `scamDetected` — or when a
previous check already latched `mission_complete`; once it returns true the
flag is set, it is preserved by every detector turn, and any later check
returns true again. -/
theorem C4_mission_complete_iff_latching :
    (∀ s : SessionState, s.check_mission_complete.1 =
      (s.mission_complete ||
        (s.scam_detected &&
          ((s.has_high_value_intel &&
             (decide (s.turn_count ≥ 5) ||
              decide (action_signal_count s ≥ 3))) ||
           decide (s.turn_count ≥ 25))))) ∧
    (∀ s : SessionState, s.check_mission_complete.1 = true →
      s.check_mission_complete.2.mission_complete = true) ∧
    (∀ s : SessionState, s.mission_complete = true →
      s.check_mission_complete.1 = true) ∧
    (∀ (s : SessionState) (msg : String) (pats : List String) (ml : MlResult)
      (llm : LLMJudgement),
      (detectTurn s msg pats ml llm).1.mission_complete = s.mission_complete) :=
  ⟨check_mission_formula, check_mission_sets_flag, check_mission_flag_true,
    detectTurn_mission⟩

/-- Witness for C4: a detected session with a UPI artifact at turn 5
completes the mission, sets the flag, and a re-check returns true. -/
theorem C4_witness :
    ({ SessionState.init with
        scam_detected := true
        turn_count := 5
        upi_ids := ["fraud@ybl"] } : SessionState).check_mission_complete.1 =
        true ∧
    ({ SessionState.init with
        scam_detected := true
        turn_count := 5
        upi_ids := ["fraud@ybl"]
        } : SessionState).check_mission_complete.2.mission_complete = true ∧
    ({ SessionState.init with mission_complete := true
        } : SessionState).check_mission_complete.1 = true :=
  ⟨by decide,
    C4_mission_complete_iff_latching.2.1
      { SessionState.init with
        scam_detected := true
        turn_count := 5
        upi_ids := ["fraud@ybl"] } (by decide),
    C4_mission_complete_iff_latching.2.2.1
      { SessionState.init with mission_complete := true } (by decide)⟩

set_option maxRecDepth 10000 in
/-- C5 counterexample. The spec gates heavy extraction at
`stage ∈ {THREAT, ACTION, CONFIRMED}`, but the gate in
`IntelligenceExtractor.extract` also includes TRUST: at stage TRUST —
which is not in the spec\x27s set — the extractor already harvests a UPI
id from the message. -/
theorem C5_counterexample :
    ScamStage.TRUST ∉ [ScamStage.THREAT, .ACTION, .CONFIRMED] ∧
    (extract "use upi fraud@ybl" {} ScamStage.TRUST).upiIds = ["fraud@ybl"] :=
  ⟨by decide, by decide⟩

/-- C5 amended. Heavy extraction runs exactly when the session\x27s
stage is in `{TRUST, THREAT, ACTION, CONFIRMED}`; at every other stage
(NORMAL, HOOK) only the light keyword merge runs, so no UPI id, bank
account, phone number or link is added below stage TRUST. -/
theorem C5_heavy_extraction_gated_at_TRUST :
    (∀ (text : String) (intel : ExtractedIntelligence) (stage : ScamStage),
      extract text intel stage =
        (if stage ∈ [ScamStage.TRUST, .THREAT, .ACTION, .CONFIRMED] then
          extract_heavy text (merge_keywords intel (extract_light text))
        else merge_keywords intel (extract_light text))) ∧
    (∀ (text : String) (intel : ExtractedIntelligence) (stage : ScamStage),
      stage ∉ [ScamStage.TRUST, .THREAT, .ACTION, .CONFIRMED] →
      (extract text intel stage).upiIds = intel.upiIds ∧
      (extract text intel stage).bankAccounts = intel.bankAccounts ∧
      (extract text intel stage).phoneNumbers = intel.phoneNumbers ∧
      (extract text intel stage).phishingLinks = intel.phishingLinks) := by
  refine ⟨extract_gating, ?_⟩
  intro text intel stage hstage
  rw [extract_gating, if_neg hstage]
  exact merge_keywords_heavy_fields intel (extract_light text)

set_option maxRecDepth 10000 in
/-- Witness for C5 at a concrete input: at stage NORMAL a message carrying
a UPI id leaves every heavy field untouched. -/
theorem C5_witness :
    ScamStage.NORMAL ∉ [ScamStage.TRUST, .THREAT, .ACTION, .CONFIRMED] ∧
    ((extract "use upi fraud@ybl" {} ScamStage.NORMAL).upiIds =
        ({} : ExtractedIntelligence).upiIds ∧
      (extract "use upi fraud@ybl" {} ScamStage.NORMAL).bankAccounts =
        ({} : ExtractedIntelligence).bankAccounts ∧
      (extract "use upi fraud@ybl" {} ScamStage.NORMAL).phoneNumbers =
        ({} : ExtractedIntelligence).phoneNumbers ∧
      (extract "use upi fraud@ybl" {} ScamStage.NORMAL).phishingLinks =
        ({} : ExtractedIntelligence).phishingLinks) :=
  ⟨by decide,
    C5_heavy_extraction_gated_at_TRUST.2 "use upi fraud@ybl" {}
      ScamStage.NORMAL (by decide)⟩

/-! ### Safety of the agent reply pools (supporting lemmas for the
validator claim) -/

theorem empty_reply_safe : validate_output_is_safe "" = true := by decide

set_option maxHeartbeats 1000000 in
theorem language_templates_safe (lang : Lang) :
    ((language_templates lang).confusion ++
     (language_templates lang).stalling ++
     (language_templates lang).followup ++
     (language_templates lang).termination).all validate_output_is_safe =
      true := by
  cases lang <;> decide

theorem natural_questions_safe (lang : Lang) :
    (natural_questions lang).all validate_output_is_safe = true := by
  cases lang <;> decide

set_option maxHeartbeats 1000000 in
theorem response_templates_safe :
    (response_templates.map Prod.snd).all
      (fun pool => pool.all validate_output_is_safe) = true := by decide

set_option maxHeartbeats 1000000 in
theorem deflection_pools_safe :
    (deflection_pools.map Prod.snd).all
      (fun pool => pool.all validate_output_is_safe) = true := by decide

theorem minimal_ack_safe (lang : Lang) :
    validate_output_is_safe (minimal_ack lang) = true := by
  cases lang <;> decide

theorem pickMod_safe (pool : List String) (i : Nat)
    (h : pool.all validate_output_is_safe = true) :
    validate_output_is_safe (pickMod pool i) = true := by
  unfold pickMod
  rcases Nat.lt_or_ge (i % pool.length) pool.length with hlt | hge
  · rw [List.getD_eq_getElem pool "" hlt]
    exact List.all_eq_true.mp h _ (List.getElem_mem hlt)
  · rw [List.getD_eq_default pool "" hge]
    exact empty_reply_safe

theorem lt_fields_safe (lang : Lang) :
    (language_templates lang).confusion.all validate_output_is_safe = true ∧
    (language_templates lang).stalling.all validate_output_is_safe = true ∧
    (language_templates lang).followup.all validate_output_is_safe = true ∧
    (language_templates lang).termination.all validate_output_is_safe =
      true := by
  have h := language_templates_safe lang
  simp only [List.all_append, Bool.and_eq_true] at h
  exact ⟨h.1.1.1, h.1.1.2, h.1.2, h.2⟩

theorem get_fallback_safe (stage : ScamStage) (language : Lang) (i : Nat) :
    validate_output_is_safe
      (get_fallback_response_language stage language i) = true := by
  obtain ⟨hc, hs, hf, ht⟩ := lt_fields_safe language
  unfold get_fallback_response_language
  dsimp only
  split
  · exact pickMod_safe _ _ hc
  · split
    · apply pickMod_safe
      simp only [List.all_append, Bool.and_eq_true]
      exact ⟨hc, hf⟩
    · apply pickMod_safe
      simp only [List.all_append, Bool.and_eq_true]
      exact ⟨hf, hs⟩

theorem get_natural_question_safe (language : Lang)
    (blocked : String → Bool) (us : Option Nat) :
    validate_output_is_safe (get_natural_question language blocked us) =
      true := by
  unfold get_natural_question
  split
  · next q hq =>
    exact List.all_eq_true.mp (natural_questions_safe language) q
      (List.mem_of_find?_eq_some hq)
  · split
    · exact pickMod_safe _ _ (lt_fields_safe language).2.1
    · exact minimal_ack_safe language

theorem attemptLoop_safe (o : GenOracle) (stage : ScamStage)
    (language : Lang) (attempts : List (Option String)) (n : Nat) :
    validate_output_is_safe (attemptLoop o stage language attempts n) =
      true := by
  induction n generalizing attempts with
  | zero =>
    unfold attemptLoop
    exact get_fallback_safe stage language o.rand_fallback
  | succ n ih =>
    unfold attemptLoop
    try dsimp only
    split
    · exact get_fallback_safe stage language o.rand_fallback
    · split
      · exact get_fallback_safe stage language o.rand_fallback
      · exact get_fallback_safe stage language o.rand_fallback
      · next raw rest =>
        try dsimp only
        split
        · next hsafe => exact hsafe
        · exact ih rest

/-- C6. Every agent reply emitted to the caller — termination phrases,
post-detection natural questions (with their stalling and minimal-ack
fallbacks), pre-detection LLM replies (accepted only after passing the
validator) and template fallbacks — passes the Safety Validator; so do all
deflection pools, all response templates, and the generic error reply of
`chat_handler`. -/
theorem C6_every_reply_passes_validator :
    (∀ (o : GenOracle) (stage : ScamStage) (language : Lang)
      (scam_detected : Bool),
      validate_output_is_safe
        (generate_response o stage language scam_detected) = true) ∧
    (deflection_pools.map Prod.snd).all
      (fun pool => pool.all validate_output_is_safe) = true ∧
    (response_templates.map Prod.snd).all
      (fun pool => pool.all validate_output_is_safe) = true ∧
    validate_output_is_safe chat_error_reply = true := by
  refine ⟨?_, deflection_pools_safe, response_templates_safe, by decide⟩
  intro o stage language det
  unfold generate_response
  dsimp only
  split
  · split
    · exact pickMod_safe _ _ (lt_fields_safe language).2.2.2
    · exact pickMod_safe _ _ (lt_fields_safe language).2.2.2
  · split
    · exact get_natural_question_safe language o.blocked o.unused_stall
    · exact attemptLoop_safe o stage language o.llm_attempts 2

/-! ### Language locking (supporting lemmas) -/

theorem language_lock_step_locked (l : Lang) (msg : String) :
    language_lock_step (some l) msg = some l := rfl

theorem foldl_lock_locked (l : Lang) (msgs : List String) :
    msgs.foldl language_lock_step (some l) = some l := by
  induction msgs with
  | nil => rfl
  | cons m rest ih => rw [List.foldl_cons, language_lock_step_locked]; exact ih

/-- C7. `lockedLanguage` is one of `{hindi, english}` or unset; once
set it never changes (`lock_language` keeps an existing lock, the per-turn
step preserves it, and over any whole session the lock equals the language
detected on the first inbound message); the first-message detection maps
Devanagari text to hindi, otherwise at least two romanized-Hindi marker
words to hindi, and everything else to english. -/
theorem C7_locked_language_invariant :
    (∀ (l : Lang) (lang2 : Lang), lock_language (some l) lang2 = some l) ∧
    (∀ (l : Lang) (msg : String), language_lock_step (some l) msg = some l) ∧
    (∀ (first : String) (rest : List String),
      (first :: rest).foldl language_lock_step none =
        some (detect_language_first_message first)) ∧
    (∀ msg : String, (strToLower msg).data.any isDevanagari = true →
      detect_language_first_message msg = .hindi) ∧
    (∀ msg : String, (strToLower msg).data.any isDevanagari = false →
      2 ≤ (hindi_words_main.filter
        (fun w => containsSub (strToLower msg) w)).length →
      detect_language_first_message msg = .hindi) ∧
    (∀ msg : String, (strToLower msg).data.any isDevanagari = false →
      (hindi_words_main.filter
        (fun w => containsSub (strToLower msg) w)).length < 2 →
      detect_language_first_message msg = .english) := by
  refine ⟨fun l lang2 => rfl, language_lock_step_locked, ?_, ?_, ?_, ?_⟩
  · intro first rest
    rw [List.foldl_cons]
    show rest.foldl language_lock_step
      (some (detect_language_first_message first)) = _
    exact foldl_lock_locked _ rest
  · intro msg h
    simp only [detect_language_first_message]
    rw [h]
    rfl
  · intro msg h h2
    simp only [detect_language_first_message]
    rw [h]
    simp only [Bool.false_eq_true, if_false]
    rw [if_pos h2]
  · intro msg h h2
    simp only [detect_language_first_message]
    rw [h]
    simp only [Bool.false_eq_true, if_false]
    rw [if_neg (by omega)]

/-- Witness for C7 at concrete inputs: a romanized-Hindi first message
locks hindi, and the lock survives two later English turns. -/
theorem C7_witness :
    ((strToLower "aap kya kar rahe ho bhai").data.any isDevanagari = false ∧
      2 ≤ (hindi_words_main.filter (fun w =>
        containsSub (strToLower "aap kya kar rahe ho bhai") w)).length ∧
      detect_language_first_message "aap kya kar rahe ho bhai" =
        .hindi) ∧
    ["aap kya kar rahe ho bhai", "send the otp", "pay now"].foldl
        language_lock_step none =
      some (detect_language_first_message "aap kya kar rahe ho bhai") :=
  ⟨⟨by decide, by decide,
      C7_locked_language_invariant.2.2.2.2.1 "aap kya kar rahe ho bhai"
        (by decide) (by decide)⟩,
    C7_locked_language_invariant.2.2.1 "aap kya kar rahe ho bhai"
      ["send the otp", "pay now"]⟩

/-- C8 counterexample. The spec promises backoff `2s, 4s, 8s`, but a
dispatch that fails all 3 attempts sleeps exactly twice — 2s and 4s; no 8s
wait ever occurs (the loop sleeps only between attempts, and the third
attempt is the last).  The flag-clearing part of the claim does hold: the
session\x27s `callback_sent` is cleared on terminal failure. -/
theorem C8_counterexample :
    (send_final_result_with_retry [PostOutcome.error, .error, .error]
        (some true)).1.2.1 = [2, 4] ∧
    (8 : Nat) ∉ (send_final_result_with_retry
        [PostOutcome.error, .error, .error] (some true)).1.2.1 ∧
    (send_final_result_with_retry [PostOutcome.error, .error, .error]
        (some true)).2 = some false :=
  ⟨rfl, by decide, rfl⟩

/-- C8 amended. Per dispatch the client makes at most 3 POST
attempts, stops at the first attempt returning HTTP 200 (any other status
or a raised exception counts as failure), sleeps 2s after a failed first
attempt and 4s after a failed second attempt (never 8s), and clears the
session\x27s `callbackSent` flag exactly when the final attempt also
failed. -/
theorem C8_retry_dispatch (o1 o2 o3 : PostOutcome) (session : Option Bool) :
    (send_final_result_with_retry [o1, o2, o3] session).1.1 ≤ 3 ∧
    (8 : Nat) ∉ (send_final_result_with_retry [o1, o2, o3] session).1.2.1 ∧
    (send_final_result o1 = true →
      send_final_result_with_retry [o1, o2, o3] session =
        ((1, [], true), session)) ∧
    (send_final_result o1 = false → send_final_result o2 = true →
      send_final_result_with_retry [o1, o2, o3] session =
        ((2, [2], true), session)) ∧
    (send_final_result o1 = false → send_final_result o2 = false →
      send_final_result o3 = true →
      send_final_result_with_retry [o1, o2, o3] session =
        ((3, [2, 4], true), session)) ∧
    (send_final_result o1 = false → send_final_result o2 = false →
      send_final_result o3 = false →
      send_final_result_with_retry [o1, o2, o3] session =
        ((3, [2, 4], false), session.map (fun _ => false))) := by
  have g1 : retryGo [o1, o2, o3] 2 3 1 =
      (if send_final_result o3 then ((1 : Nat), ([] : List Nat), true)
       else (1, [], false)) := rfl
  have g2 : retryGo [o1, o2, o3] 2 2 2 =
      (if send_final_result o2 then ((1 : Nat), ([] : List Nat), true)
       else ((retryGo [o1, o2, o3] 2 3 1).1 + 1,
         4 :: (retryGo [o1, o2, o3] 2 3 1).2.1,
         (retryGo [o1, o2, o3] 2 3 1).2.2)) := rfl
  have g3 : retryGo [o1, o2, o3] 2 1 3 =
      (if send_final_result o1 then ((1 : Nat), ([] : List Nat), true)
       else ((retryGo [o1, o2, o3] 2 2 2).1 + 1,
         2 :: (retryGo [o1, o2, o3] 2 2 2).2.1,
         (retryGo [o1, o2, o3] 2 2 2).2.2)) := rfl
  have e : send_final_result_with_retry [o1, o2, o3] session =
      (if send_final_result o1 then ((1, [], true), session)
       else if send_final_result o2 then ((2, [2], true), session)
       else if send_final_result o3 then ((3, [2, 4], true), session)
       else ((3, [2, 4], false), session.map (fun _ => false))) := by
    unfold send_final_result_with_retry
    rw [g3, g2, g1]
    by_cases h1 : send_final_result o1 = true <;>
      by_cases h2 : send_final_result o2 = true <;>
        by_cases h3 : send_final_result o3 = true <;>
          simp [h1, h2, h3]
  rw [e]
  by_cases h1 : send_final_result o1 = true <;>
    by_cases h2 : send_final_result o2 = true <;>
      by_cases h3 : send_final_result o3 = true <;>
        simp [h1, h2, h3]

/-- Witness for C8 at a concrete input: first POST returns HTTP 500,
second returns HTTP 200 — the dispatcher stops after 2 attempts with one
2s sleep and keeps the session flag. -/
theorem C8_witness :
    send_final_result (PostOutcome.ok 500) = false ∧
    send_final_result (PostOutcome.ok 200) = true ∧
    send_final_result_with_retry [PostOutcome.ok 500, .ok 200, .error]
        (some true) = ((2, [2], true), some true) :=
  ⟨by decide, by decide,
    (C8_retry_dispatch (.ok 500) (.ok 200) .error (some true)).2.2.2.1
      (by decide) (by decide)⟩

/-! ### The detector pipeline reads the ML confidence only through its
cutoff cell -/

theorem mlLadderScore_bucket (c c' : Rat)
    (h7 : (0.7 ≤ c) ↔ (0.7 ≤ c')) (h8 : (0.8 ≤ c) ↔ (0.8 ≤ c'))
    (h9 : (0.9 ≤ c) ↔ (0.9 ≤ c')) :
    mlLadderScore c = mlLadderScore c' := by
  unfold mlLadderScore
  by_cases hc9 : (0.9:Rat) ≤ c
  · rw [if_pos hc9, if_pos (h9.mp hc9)]
  · rw [if_neg hc9, if_neg (fun h => hc9 (h9.mpr h))]
    by_cases hc8 : (0.8:Rat) ≤ c
    · rw [if_pos hc8, if_pos (h8.mp hc8)]
    · rw [if_neg hc8, if_neg (fun h => hc8 (h8.mpr h))]
      by_cases hc7 : (0.7:Rat) ≤ c
      · rw [if_pos hc7, if_pos (h7.mp hc7)]
      · rw [if_neg hc7, if_neg (fun h => hc7 (h7.mpr h))]

theorem detect_ml_step_bucket (s : SessionState) (t : Nat) (b : Bool)
    (c c' : Rat) (h6 : (0.6 ≤ c) ↔ (0.6 ≤ c'))
    (h7 : (0.7 ≤ c) ↔ (0.7 ≤ c')) (h8 : (0.8 ≤ c) ↔ (0.8 ≤ c'))
    (h9 : (0.9 ≤ c) ↔ (0.9 ≤ c')) :
    detect_ml_step s ⟨b, c⟩ t = detect_ml_step s ⟨b, c'⟩ t := by
  unfold detect_ml_step apply_ml_score
  dsimp only
  cases b with
  | false => rw [if_neg (by simp), if_neg (by simp)]
  | true =>
    by_cases hc6 : (0.6:Rat) ≤ c
    · have hc6' : (0.6:Rat) ≤ c' := h6.mp hc6
      have hn : ¬ c < 0.6 := not_lt.mpr hc6
      have hn' : ¬ c' < 0.6 := not_lt.mpr hc6'
      simp only [hc6, hc6', hn, hn', ge_iff_le, and_true, true_and,
        eq_self_iff_true, if_true, Bool.not_true, Bool.false_or,
        decide_eq_true_eq, if_false, iff_true,
        mlLadderScore_bucket c c' h7 h8 h9]
    · rw [if_neg (fun h => hc6 h.2), if_neg (fun h => hc6 (h6.mpr h.2))]

/-- The whole detector turn depends on the ML confidence only through the
0.6/0.7/0.8/0.9 cutoff comparisons, so any rational representative in the
same cutoff cell as the true (transcendental) probability produces the
true run\x27s session state and verdict. -/
theorem detectTurn_ml_conf_bucket (s : SessionState) (msg : String)
    (pats : List String) (llm : LLMJudgement) (b : Bool) (c c' : Rat)
    (h6 : (0.6 ≤ c) ↔ (0.6 ≤ c'))
    (h7 : (0.7 ≤ c) ↔ (0.7 ≤ c')) (h8 : (0.8 ≤ c) ↔ (0.8 ≤ c'))
    (h9 : (0.9 ≤ c) ↔ (0.9 ≤ c')) :
    detectTurn s msg pats ⟨b, c⟩ llm = detectTurn s msg pats ⟨b, c'⟩ llm := by
  have hpre : preLlmState s msg pats ⟨b, c⟩ =
      preLlmState s msg pats ⟨b, c'⟩ := by
    unfold preLlmState
    dsimp only
    rw [detect_ml_step_bucket _ _ b c c' h6 h7 h8 h9]
  have hinv : shouldInvokeLlm s msg pats ⟨b, c⟩ =
      shouldInvokeLlm s msg pats ⟨b, c'⟩ := by
    unfold shouldInvokeLlm
    rw [hpre]
  unfold detectTurn
  dsimp only
  rw [hpre, hinv]

/-! ### Cutoff cells of the logistic (real-analysis bounds) -/

theorem mlProbability_pos (s : Rat) : 0 < mlProbability s := by
  unfold mlProbability
  positivity

theorem mlProbability_lt_half (s : Rat) (h : s < 0) :
    mlProbability s < 1/2 := by
  unfold mlProbability
  have hs : (0:ℝ) < -(s:ℝ) * 2 := by
    have h' : (s:ℝ) < 0 := by exact_mod_cast h
    nlinarith
  have hx : (1:ℝ) < Real.exp (-(s:ℝ) * 2) := by
    calc (1:ℝ) = Real.exp 0 := Real.exp_zero.symm
    _ < Real.exp (-(s:ℝ) * 2) := Real.exp_lt_exp.mpr hs
  rw [div_lt_iff₀ (by positivity)]
  linarith

theorem mlProbability_ge_07 (s : Rat) (h : (1:Rat) ≤ s * 2) :
    (7:ℝ)/10 ≤ mlProbability s := by
  unfold mlProbability
  have hs : (1:ℝ) ≤ (s:ℝ) * 2 := by exact_mod_cast h
  have hexp : Real.exp (-(s:ℝ) * 2) ≤ Real.exp (-1 : ℝ) :=
    Real.exp_le_exp.mpr (by linarith)
  have he : (7:ℝ)/3 < Real.exp 1 := lt_trans (by norm_num) Real.exp_one_gt_d9
  have hee : Real.exp 1 * Real.exp (-1 : ℝ) = 1 := by
    rw [← Real.exp_add]
    norm_num
  have h37 : Real.exp (-1 : ℝ) ≤ 3/7 := by
    nlinarith [Real.exp_pos (-1 : ℝ)]
  have hpos : (0:ℝ) < 1 + Real.exp (-(s:ℝ) * 2) := by positivity
  rw [le_div_iff₀ hpos]
  nlinarith [Real.exp_pos (-(s:ℝ) * 2)]

theorem mlProbability_lt_08 (s : Rat) (h2 : (s:ℝ) * 2 < 2 * Real.log 2) :
    mlProbability s < 8/10 := by
  unfold mlProbability
  have hx : Real.exp (-(2:ℝ) * Real.log 2) < Real.exp (-(s:ℝ) * 2) :=
    Real.exp_lt_exp.mpr (by linarith)
  have hq : Real.exp (-(2:ℝ) * Real.log 2) = 1/4 := by
    rw [show (-(2:ℝ) * Real.log 2) = -Real.log 2 + -Real.log 2 by ring,
      Real.exp_add, Real.exp_neg, Real.exp_log (by norm_num : (0:ℝ) < 2)]
    norm_num
  rw [hq] at hx
  rw [div_lt_iff₀ (by positivity)]
  linarith

/-- Bound on the turn-2 ML confidence of `_run_ml_detection` over a
three-message conversation whose first message has probability in
`[0.7, 0.8)` and whose other two are individually below `1/2`: only one
message is flagged, so the ×1.1 bonus does not apply and the aggregate
stays below `0.8`. -/
theorem run_ml_conf_bound (p1 p2 p3 : ℝ)
    (h1a : 7/10 ≤ p1) (h1b : p1 < 8/10)
    (h2a : 0 < p2) (h2b : p2 < 1/2)
    (h3a : 0 < p3) (h3b : p3 < 1/2) :
    run_ml_confidence p3 [p1, p2] < 8/10 := by
  have f1 : (1:ℝ)/2 ≤ p1 := le_trans (by norm_num) h1a
  have f2 : ¬((1:ℝ)/2 ≤ p2) := not_le.mpr h2b
  have f3 : ¬((1:ℝ)/2 ≤ p3) := not_le.mpr h3b
  unfold run_ml_confidence predict_conversation_conf
  simp only [List.isEmpty_cons, Bool.false_eq_true, if_false,
    List.cons_append, List.nil_append, List.filter_cons, List.filter_nil,
    decide_eq_true_eq, List.foldl_cons, List.foldl_nil]
  rw [if_pos f1, if_neg f2, if_neg f3]
  simp only [List.length_cons, List.length_nil]
  rw [if_neg (by norm_num : ¬ 2 * (0 + 1) ≥ 0 + 1 + 1 + 1)]
  have hmax : p1 ⊔ p2 ⊔ p3 < 8/10 :=
    max_lt (max_lt h1b (h2b.trans (by norm_num))) (h3b.trans (by norm_num))
  have havg : (0 + p1 + p2 + p3) / ((0 + 1 + 1 + 1 : ℕ) : ℝ) < 3/5 := by
    rw [div_lt_iff₀ (by norm_num)]
    push_cast
    linarith
  apply max_lt (h3b.trans (by norm_num : (1:ℝ)/2 < 8/10))
  linarith

set_option maxRecDepth 10000 in
set_option maxHeartbeats 4000000 in
unseal Rat.ofScientific Rat.mul Rat.add in
/-- C9 counterexample. The per-turn verdict is *not* latching, on a trace
faithful to the in-repo deterministic ML detector.  Turn 1
(`scenario_msg1`): the rule scan fires `gov_authority` (24) and
`identity_request` (18) and no hard rule; no stage pattern matches; the
ML linear score is exactly `3/5`, and its logistic probability — the true
confidence of `_run_ml_detection` on turn 1 — lies in `[0.7, 0.8)` (third
group of conjuncts), so the ML step adds 12 and the risk lands at 54,
inside the consensus window `[50, 70)`.  With the external judge deeming
the conversation scam-likely below the 0.85 latch threshold
(`scenario_j1`), the emitted verdict is `true`, but the consensus branch
of `_make_decision` never persists it: `session.scam_detected` stays
`false`.  Turn 2 (`scenario_msg2` after history
`[scenario_msg1, scenario_reply1]`): the true turn-2 ML confidence is
below `0.8` (`run_ml_conf_bound` conjunct), so the three rational
representatives cover every cutoff cell it can fall in
(`detectTurn_ml_conf_bucket`), and the emitted verdict is `false` in
every case while the flag is still `false` — the turn-1 `true` verdict
did not latch. -/
theorem C9_counterexample :
    ((analyze_message scenario_msg1 1).2.2 = false ∧
      detect_stage_patterns scenario_msg1 = [] ∧
      detect_stage_patterns scenario_msg2 = []) ∧
    (mlLinearScore scenario_msg1 = mkRat 3 5 ∧
      mlLinearScore scenario_reply1 = mkRat (-179) 600 ∧
      mlLinearScore scenario_msg2 = mkRat (-3) 10) ∧
    ((7:ℝ)/10 ≤ mlProbability (mlLinearScore scenario_msg1) ∧
      mlProbability (mlLinearScore scenario_msg1) < 8/10 ∧
      run_ml_confidence (mlProbability (mlLinearScore scenario_msg2))
        [mlProbability (mlLinearScore scenario_msg1),
         mlProbability (mlLinearScore scenario_reply1)] < 8/10) ∧
    (scenario_turn1.2 = true ∧ scenario_turn1.1.scam_detected = false ∧
      scenario_turn1.1.risk_score = 54) ∧
    (scenario_turn2_low.2 = false ∧ scenario_turn2_low.1.scam_detected =
        false ∧
      scenario_turn2_mid.2 = false ∧ scenario_turn2_mid.1.scam_detected =
        false ∧
      scenario_turn2_high.2 = false ∧
      scenario_turn2_high.1.scam_detected = false) := by
  have e1 : mlLinearScore scenario_msg1 = mkRat 3 5 := by decide
  have e2 : mlLinearScore scenario_reply1 = mkRat (-179) 600 := by decide
  have e3 : mlLinearScore scenario_msg2 = mkRat (-3) 10 := by decide
  refine ⟨⟨by decide, by decide, by decide⟩, ⟨e1, e2, e3⟩, ?_,
    ⟨by decide, by decide, by decide⟩,
    by decide, by decide, by decide, by decide, by decide, by decide⟩
  rw [e1, e2, e3]
  have hc35 : ((mkRat 3 5 : ℚ) : ℝ) = 3/5 := by
    rw [Rat.mkRat_eq_div]
    push_cast
    norm_num
  have h07 : (7:ℝ)/10 ≤ mlProbability (mkRat 3 5) :=
    mlProbability_ge_07 _ (by decide)
  have h08 : mlProbability (mkRat 3 5) < 8/10 := by
    apply mlProbability_lt_08
    rw [hc35]
    nlinarith [Real.log_two_gt_d9]
  exact ⟨h07, h08,
    run_ml_conf_bound _ _ _ h07 h08 (mlProbability_pos _)
      (mlProbability_lt_half _ (by decide)) (mlProbability_pos _)
      (mlProbability_lt_half _ (by decide))⟩

/-- C9 amended. The verdict latches only through the session flag:
once `session.scamDetected` is `true`, every later verdict (and the flag)
stays `true`; and the only way a turn can emit verdict `true` while the
session flag remains `false` — the sole non-latching case — is the
ML+LLM consensus branch: no hard rule fired, final risk in `[50, 70)`,
ML flagged the message, and the invoked judge deemed it scam-likely below
the 0.85 latch threshold.  The `DetectInv` conjuncts show the reachable
states satisfy the invariant this characterization needs. -/
theorem C9_verdict_latches_only_via_session_flag :
    (∀ (s : SessionState) (msg : String) (pats : List String) (ml : MlResult)
      (llm : LLMJudgement), s.scam_detected = true →
      (detectTurn s msg pats ml llm).1.scam_detected = true ∧
      (detectTurn s msg pats ml llm).2 = true) ∧
    (∀ (s : SessionState) (msg : String) (pats : List String) (ml : MlResult)
      (llm : LLMJudgement), DetectInv s →
      (detectTurn s msg pats ml llm).2 = true →
      (detectTurn s msg pats ml llm).1.scam_detected = false →
      (analyze_message msg (s.turn_count + 1)).2.2 = false ∧
      ml.is_scam = true ∧ llm.is_scam_likely = true ∧
      shouldInvokeLlm s msg pats ml = true ∧
      ¬(llm.is_scam_likely = true ∧ llm.confidence ≥ 0.85) ∧
      50 ≤ (detectTurn s msg pats ml llm).1.risk_score ∧
      (detectTurn s msg pats ml llm).1.risk_score < 70) ∧
    (∀ (s : SessionState) (msg : String) (pats : List String) (ml : MlResult)
      (llm : LLMJudgement), DetectInv s →
      DetectInv (detectTurn s msg pats ml llm).1) ∧
    DetectInv SessionState.init :=
  ⟨detectTurn_detected_latch, detectTurn_consensus_only, detectTurn_detectinv,
    fun h => absurd h (by decide)⟩

/-- Witness for C9 at a concrete input: a session whose flag is already
latched keeps flag and verdict `true` on an innocuous turn. -/
theorem C9_witness :
    ({ SessionState.init with scam_detected := true
        } : SessionState).scam_detected = true ∧
    ((detectTurn { SessionState.init with scam_detected := true } "ok" []
        { is_scam := false, confidence := 0 } scenario_j2).1.scam_detected =
        true ∧
      (detectTurn { SessionState.init with scam_detected := true } "ok" []
        { is_scam := false, confidence := 0 } scenario_j2).2 = true) :=
  ⟨rfl,
    C9_verdict_latches_only_via_session_flag.1
      { SessionState.init with scam_detected := true } "ok" []
      { is_scam := false, confidence := 0 } scenario_j2 rfl⟩

set_option maxRecDepth 10000 in
/-- C10 counterexample. The WhatsApp-link loop of
`_extract_additional_intel` appends the captured number *verbatim* — here
`"+919876543210"`, 13 characters with a `+` — so not every element of
`phoneNumbers` is a normalized 10-digit number. -/
theorem C10_counterexample :
    "+919876543210" ∈
      (extract "wa.me/+919876543210" {} ScamStage.ACTION).phoneNumbers ∧
    ("+919876543210" : String).length ≠ 10 :=
  ⟨by decide, by decide⟩

/-- C10 amended. The Indian-phone-regex path adds only numbers that
passed the `len == 10` guard after normalization (stripping separators and
the `+91`/`91`/`0` prefixes); in a full extraction pass every phone number
is either pre-existing, such a normalized 10-character number, or a
verbatim capture of the WhatsApp-link pattern (10–15 digits with an
optional leading `+`). -/
theorem C10_phone_normalization :
    (∀ (text : String) (intel : ExtractedIntelligence),
      ∀ p ∈ (extract_phone_numbers text intel).phoneNumbers,
        p ∈ intel.phoneNumbers ∨ p.length = 10) ∧
    (∀ (text : String) (intel : ExtractedIntelligence) (stage : ScamStage),
      ∀ p ∈ (extract text intel stage).phoneNumbers,
        p ∈ intel.phoneNumbers ∨ p.length = 10 ∨
          p ∈ reFindall2 whatsappPre whatsappGrp text) := by
  refine ⟨extract_phone_new, ?_⟩
  intro text intel stage p hp
  rw [extract_gating] at hp
  by_cases hs : stage ∈ [ScamStage.TRUST, .THREAT, .ACTION, .CONFIRMED]
  · rw [if_pos hs] at hp
    rcases extract_heavy_phones _ _ p hp with h | h | h
    · rw [(merge_keywords_heavy_fields intel (extract_light text)).2.2.1] at h
      exact Or.inl h
    · exact Or.inr (Or.inl h)
    · exact Or.inr (Or.inr h)
  · rw [if_neg hs] at hp
    rw [(merge_keywords_heavy_fields intel (extract_light text)).2.2.1] at hp
    exact Or.inl hp

set_option maxRecDepth 10000 in
/-- Witness for C10 at a concrete input: the number harvested from
"call 9876543210" at stage ACTION is covered by the characterization. -/
theorem C10_witness :
    "9876543210" ∈
      (extract "call 9876543210" {} ScamStage.ACTION).phoneNumbers ∧
    ("9876543210" ∈ ({} : ExtractedIntelligence).phoneNumbers ∨
      ("9876543210" : String).length = 10 ∨
      "9876543210" ∈ reFindall2 whatsappPre whatsappGrp "call 9876543210") :=
  ⟨by decide,
    C10_phone_normalization.2 "call 9876543210" {} ScamStage.ACTION
      "9876543210" (by decide)⟩

end Honeypot
